import Mathlib

/-!
Verification development for a C static analyzer (Python package
`backend.analyzer`).  The Python sources are shallowly embedded: the
clang cursor tree that the frontend hands to the analyzer is modelled as
an inductive `Cursor`, Python mutable sets/dicts become lists with
membership, and each checker becomes a pure Lean function that mirrors
the Python control flow statement by statement.  File/line references in
comments point into the Python sources.
-/

set_option maxHeartbeats 1600000

/-! ### backend/analyzer/report.py -/

/-- `Suggestion` dataclass (report.py lines 13-22). -/
structure Suggestion where
  title : String
  detail : Option String
  deriving DecidableEq, Repr

/-- `Issue` dataclass (report.py lines 25-47).  `file` is the string of the
Path; `line` is a natural number; `column` is optional as in the source.
The dataclass performs no validation of `severity` or `category`. -/
structure Issue where
  category : String
  severity : String
  message : String
  file : String
  line : Nat
  column : Option Nat
  suggestion : Option Suggestion
  deriving DecidableEq, Repr

/-- Minimal JSON-like value type used to model the `to_dict`
serializations; object keys are kept in insertion order, so equality of
`J` values models byte-identical serialized output. -/
inductive J where
  | s : String → J
  | n : Nat → J
  | obj : List (String × J) → J
  | arr : List J → J

/-- `Suggestion.to_dict` (report.py lines 18-22): `detail` is included only
when truthy (non-empty). -/
def Suggestion.to_dict (sg : Suggestion) : J :=
  J.obj ([("title", J.s sg.title)] ++
    (match sg.detail with
     | some d => if d ≠ "" then [("detail", J.s d)] else []
     | none => []))

/-- `Issue.to_dict` (report.py lines 35-47): `column` included when not
`None`, `suggestion` included when present (a `Suggestion` object is always
truthy in Python). -/
def Issue.to_dict (i : Issue) : J :=
  J.obj ([("category", J.s i.category), ("severity", J.s i.severity),
          ("message", J.s i.message), ("file", J.s i.file), ("line", J.n i.line)] ++
    (match i.column with
     | some c => [("column", J.n c)]
     | none => []) ++
    (match i.suggestion with
     | some sg => [("suggestion", sg.to_dict)]
     | none => []))

/-- `Report` (report.py lines 50-72). -/
structure Report where
  source : String
  issues : List Issue
  deriving DecidableEq, Repr

/-- One step of the histogram loop in `Report.severity_summary`
(report.py lines 61-65): bump the count of `sev`, appending a new key in
insertion order when absent (Python dict preserves insertion order). -/
def bumpCount : List (String × Nat) → String → List (String × Nat)
  | [], sev => [(sev, 1)]
  | (k, v) :: rest, sev =>
      if k = sev then (k, v + 1) :: rest else (k, v) :: bumpCount rest sev

/-- `Report.severity_summary` (report.py lines 61-65). -/
def Report.severity_summary (r : Report) : List (String × Nat) :=
  r.issues.foldl (fun acc i => bumpCount acc i.severity) []

/-- `Report.has_errors` (report.py lines 57-59). -/
def Report.has_errors (r : Report) : Bool :=
  r.issues.any (fun i => i.severity == "error")

/-- `Report.to_dict` (report.py lines 67-72). -/
def Report.to_dict (r : Report) : J :=
  J.obj [("source", J.s r.source),
         ("issues", J.arr (r.issues.map Issue.to_dict)),
         ("summary", J.obj (r.severity_summary.map (fun p => (p.1, J.n p.2))))]

/-! ### backend/config.py -/

/-- `AnalyzerConfig` dataclass (config.py lines 12-18). -/
structure AnalyzerConfig where
  compile_args : List String
  enable_suggestions : Bool
  stop_on_error : Bool
  deriving DecidableEq, Repr

/-- `DEFAULT_CONFIG` (config.py line 21). -/
def DEFAULT_CONFIG : AnalyzerConfig :=
  { compile_args := ["-std=c11"], enable_suggestions := true, stop_on_error := false }

/-! ### runner.py sort key -/

/-- Severity ranking used by `_issue_sort_key` (runner.py lines 61-68):
`{"error": 0, "warning": 1, "info": 2}.get(severity, 3)`. -/
def severityRank (sev : String) : Nat :=
  if sev = "error" then 0
  else if sev = "warning" then 1
  else if sev = "info" then 2
  else 3

/-- `_issue_sort_key` (runner.py lines 61-68): the Python tuple
`(severity_rank, str(file), line, column or 0)`. -/
def issue_sort_key (i : Issue) : Nat × String × Nat × Nat :=
  (severityRank i.severity, i.file, i.line, i.column.getD 0)

/-- Lexicographic comparison of sort keys, i.e. Python tuple `<=`. -/
def keyLE : Nat × String × Nat × Nat → Nat × String × Nat × Nat → Bool
  | (s1, f1, l1, c1), (s2, f2, l2, c2) =>
    if s1 ≠ s2 then decide (s1 < s2)
    else if f1 ≠ f2 then decide (f1 < f2)
    else if l1 ≠ l2 then decide (l1 < l2)
    else decide (c1 ≤ c2)

/-- Comparison on issues via their sort key. -/
def issueLE (a b : Issue) : Bool := keyLE (issue_sort_key a) (issue_sort_key b)

/-- Stable insertion of one element into an already-sorted accumulator:
the new element goes after every element that compares `≤` to it. -/
def insertSorted (le : α → α → Bool) (x : α) : List α → List α
  | [] => [x]
  | y :: ys => if le y x then y :: insertSorted le x ys else x :: y :: ys

/-- A stable sort (insertion sort).  `list.sort(key=...)` in Python is
stable, and a stable sort's output is uniquely determined by the key
order and the input order, so this models `issues.sort(key=_issue_sort_key)`
(runner.py line 57) faithfully. -/
def stableSort (le : α → α → Bool) (l : List α) : List α :=
  l.foldl (fun acc x => insertSorted le x acc) []

/-! ### Cursor model (the clang frontend capability interface)

`backend/analyzer/utils.py` exposes cursors only through: `kind`,
`spelling`, `displayname`, `type.kind`, `type.get_array_size()`,
`get_children()`, `get_arguments()`, `get_tokens()` (token spellings),
`location`/`extent.start` (file, line, column), `referenced`,
`storage_class`, and `semantic_parent`.  `Cursor` records exactly that
data; `semSiblings` records the children of the node's semantic parent
(used only by `_is_reachable` in the numeric checker). -/

inductive CursorKind where
  | VAR_DECL | FUNCTION_DECL | PARM_DECL | CALL_EXPR | BINARY_OPERATOR
  | UNARY_OPERATOR | DECL_REF_EXPR | MEMBER_REF_EXPR | ARRAY_SUBSCRIPT_EXPR
  | RETURN_STMT | IF_STMT | WHILE_STMT | FOR_STMT | COMPOUND_STMT
  | BREAK_STMT | CONTINUE_STMT | PAREN_EXPR | UNEXPOSED_EXPR
  | STRUCT_DECL | UNION_DECL | DECL_STMT | INTEGER_LITERAL | STRING_LITERAL
  | TRANSLATION_UNIT | OTHER
  deriving DecidableEq, Repr

inductive TypeKind where
  | POINTER | CONSTANTARRAY | OTHER
  deriving DecidableEq, Repr

/-- The slice of a clang type the analyzer reads: its kind and, for
constant arrays, `get_array_size()` (clang returns a negative value when
the extent is unknown, hence `Int`). -/
structure CType where
  kind : TypeKind
  arraySize : Option Int
  deriving DecidableEq, Repr

/-- A source location: `file` is `none` when the location has no file
(e.g. the translation-unit cursor). -/
structure SrcLoc where
  file : Option String
  line : Nat
  column : Option Nat
  deriving DecidableEq, Repr

/-- The referenced declaration of a cursor (`cursor.referenced`): the
analyzer only reads its `spelling` and `kind`. -/
structure Ref where
  spelling : String
  kind : CursorKind
  deriving DecidableEq, Repr

/-- Non-recursive payload of a cursor (the kind is a separate argument of
the `Cursor` constructor). -/
structure CursorData where
  spelling : String
  displayname : String
  typ : CType
  loc : SrcLoc
  tokens : List String
  referenced : Option Ref
  hasExternStorage : Bool
  semParentKind : Option CursorKind
  deriving DecidableEq, Repr

inductive Cursor : Type where
  | mk (kind : CursorKind) (data : CursorData) (children : List Cursor)
       (arguments : List Cursor) (semSiblings : List Cursor) : Cursor

def Cursor.kind : Cursor → CursorKind
  | .mk k _ _ _ _ => k

def Cursor.data : Cursor → CursorData
  | .mk _ d _ _ _ => d

def Cursor.children : Cursor → List Cursor
  | .mk _ _ cs _ _ => cs

def Cursor.arguments : Cursor → List Cursor
  | .mk _ _ _ args _ => args

def Cursor.semSiblings : Cursor → List Cursor
  | .mk _ _ _ _ sibs => sibs

def Cursor.spelling (c : Cursor) : String := c.data.spelling
def Cursor.displayname (c : Cursor) : String := c.data.displayname
def Cursor.typ (c : Cursor) : CType := c.data.typ
def Cursor.loc (c : Cursor) : SrcLoc := c.data.loc
def Cursor.tokens (c : Cursor) : List String := c.data.tokens
def Cursor.referenced (c : Cursor) : Option Ref := c.data.referenced
def Cursor.semParentKind (c : Cursor) : Option CursorKind := c.data.semParentKind

mutual
/-- Structural cursor equality, modelling `clang.cindex.Cursor.__eq__`
(used by `_is_reachable` via `child == cursor`). -/
def Cursor.beq : Cursor → Cursor → Bool
  | .mk k1 d1 cs1 a1 s1, .mk k2 d2 cs2 a2 s2 =>
    k1 == k2 && d1 == d2 && Cursor.beqList cs1 cs2 && Cursor.beqList a1 a2 && Cursor.beqList s1 s2

/-- Pointwise `Cursor.beq` on lists. -/
def Cursor.beqList : List Cursor → List Cursor → Bool
  | [], [] => true
  | x :: xs, y :: ys => Cursor.beq x y && Cursor.beqList xs ys
  | _, _ => false
end

instance : BEq Cursor := ⟨Cursor.beq⟩

/-- `TranslationUnit`: the cursor tree plus the include basenames that
`find_includes` (utils.py lines 47-51) extracts from it. -/
structure TranslationUnit where
  cursor : Cursor
  includes : List String

/-- `AnalysisContext` dataclass (context.py lines 10-14). -/
structure AnalysisContext where
  source : String
  translation_unit : TranslationUnit
  compile_args : List String

/-- `cursor_location` (utils.py lines 42-44): path defaults to
`"<unknown>"` when the location has no file. -/
def cursor_location (c : Cursor) : String × Nat × Option Nat :=
  (c.loc.file.getD "<unknown>", c.loc.line, c.loc.column)

/-- Python set union on string lists (order-insensitive membership is all
the analyzer relies on). -/
def unionS (a b : List String) : List String :=
  a ++ b.filter (fun x => ¬ a.contains x)

/-! ### backend/analyzer/memory_checker.py — helpers -/

/-- Python `a or b` on optional names: the analyzer's resolvers never
produce `some ""`, but mirror the truthiness test anyway. -/
def pyOr (a b : Option String) : Option String :=
  match a with
  | some s => if s = "" then b else some s
  | none => b

/-- Python set `add` / dedup-preserving append (also used for location
keys). -/
def addK [DecidableEq α] (xs : List α) (x : α) : List α :=
  if x ∈ xs then xs else xs ++ [x]

/-- Python dict assignment `m[k] = v` (lookup finds the newest binding). -/
def setD (m : List (String × Int)) (k : String) (v : Int) : List (String × Int) :=
  (k, v) :: m

/-- Python dict `m.get(k)`. -/
def getD? (m : List (String × Int)) (k : String) : Option Int :=
  (m.find? (fun p => p.1 = k)).map (fun p => p.2)

/-- `_resolve_decl_name` (memory_checker.py lines 585-592). -/
def resolve_decl_name (c : Cursor) : Option String :=
  if c.kind = .DECL_REF_EXPR ∧ c.spelling ≠ "" then
    match c.referenced with
    | some r => if r.spelling ≠ "" then some r.spelling else some c.spelling
    | none => some c.spelling
  else none

/-- `_first_decl_ref_name` (memory_checker.py lines 331-339) over a list of
children: the first `DECL_REF_EXPR` with a truthy spelling, in depth-first
document order. -/
def first_decl_ref_name_list : List Cursor → Option String
  | [] => none
  | c :: rest =>
    match c with
    | .mk k d cs _ _ =>
      if k = .DECL_REF_EXPR ∧ d.spelling ≠ "" then some d.spelling
      else
        match first_decl_ref_name_list cs with
        | some r => some r
        | none => first_decl_ref_name_list rest

/-- `_first_decl_ref_name(node)` starts at the node's children. -/
def first_decl_ref_name (node : Cursor) : Option String :=
  first_decl_ref_name_list node.children

/-- `_collect_decl_ref_names` (memory_checker.py lines 341-348).  The
Python function returns a `set`; this embedding fixes depth-first
discovery order (set iteration order is unspecified in Python, membership
is what the checker relies on). -/
def collect_decl_ref_names_list : List Cursor → List String → List String
  | [], acc => acc
  | c :: rest, acc =>
    match c with
    | .mk k d cs _ _ =>
      let acc := if k = .DECL_REF_EXPR ∧ d.spelling ≠ "" then addK acc d.spelling else acc
      let acc := collect_decl_ref_names_list cs acc
      collect_decl_ref_names_list rest acc

def collect_decl_ref_names (node : Cursor) : List String :=
  collect_decl_ref_names_list node.children []

/-- `_resolve_callee` (memory_checker.py lines 320-329). -/
def resolve_callee : Option Cursor → Option String
  | none => none
  | some c =>
    let fallback : Option String :=
      let name := if c.spelling ≠ "" then c.spelling else c.displayname
      if name = "" then none else some ((name.splitOn "(").headD name)
    match c.referenced with
    | some r => if r.spelling ≠ "" then some r.spelling else fallback
    | none => fallback

/-- `_resolve_assignment_target` (memory_checker.py lines 304-312). -/
def resolve_assignment_target (node : Cursor) : Option String :=
  match node.children with
  | [] => none
  | lhs :: _ =>
    if lhs.kind = .DECL_REF_EXPR then
      pyOr (resolve_decl_name lhs) (if lhs.spelling ≠ "" then some lhs.spelling else none)
    else none

/-- `_resolve_assignment_rhs` (memory_checker.py lines 314-318). -/
def resolve_assignment_rhs (node : Cursor) : Option Cursor :=
  match node.children with
  | _ :: rhs :: _ => some rhs
  | _ => none

/-- `_extract_array_size` (memory_checker.py lines 543-552): clang returns
a negative extent when unknown. -/
def extract_array_size (t : CType) : Option Int :=
  match t.arraySize with
  | none => none
  | some s => if s < 0 then none else some s

/-- Python `int(text, 0)` on the token strings the analyzer feeds it:
optional sign, then hex/octal/binary prefix or decimal (decimal literals
with a leading zero are rejected, as in Python 3). -/
def parseDigits (base : Nat) : List Char → Option Nat
  | [] => none
  | cs =>
    cs.foldl (fun acc c =>
      match acc with
      | none => none
      | some n =>
        let d : Option Nat :=
          if '0' ≤ c ∧ c ≤ '9' then some (c.toNat - '0'.toNat)
          else if 'a' ≤ c ∧ c ≤ 'f' then some (c.toNat - 'a'.toNat + 10)
          else if 'A' ≤ c ∧ c ≤ 'F' then some (c.toNat - 'A'.toNat + 10)
          else none
        match d with
        | some dv => if dv < base then some (n * base + dv) else none
        | none => none) (some 0)

def pyIntBase0 (text : String) : Option Int :=
  let cs := text.toList
  let signed : Bool × List Char :=
    match cs with
    | '-' :: r => (true, r)
    | '+' :: r => (false, r)
    | _ => (false, cs)
  let body := signed.2
  let mag : Option Nat :=
    match body with
    | '0' :: x :: rest =>
      if x = 'x' ∨ x = 'X' then parseDigits 16 rest
      else if x = 'o' ∨ x = 'O' then parseDigits 8 rest
      else if x = 'b' ∨ x = 'B' then parseDigits 2 rest
      else if (x :: rest).all (fun c => c = '0') then some 0
      else none
    | _ => parseDigits 10 body
  mag.map (fun n => if signed.1 then -(n : Int) else (n : Int))

/-- `_extract_constant_index` (memory_checker.py lines 594-609). -/
def extract_constant_index (c : Cursor) : Option Int :=
  let tokens := c.tokens
  if tokens.isEmpty then none
  else
    let text := String.join tokens
    match pyIntBase0 text with
    | some v => some v
    | none =>
      if tokens.headD "" = "-" ∧ tokens.length = 2 then
        (pyIntBase0 (tokens.getD 1 "")).map (fun v => -v)
      else none

/-! ### memory_checker.py — issue builders (lines 407-533) -/

/-- `_build_null_deref_issue` (memory_checker.py lines 407-421). -/
def build_null_deref_issue (c : Cursor) (name : String) : Issue :=
  let fl := cursor_location c
  { category := "memory", severity := "error",
    message := "指针 `" ++ name ++ "` 可能为空却被解引用。",
    file := fl.1, line := fl.2.1, column := fl.2.2,
    suggestion := some
      { title := "在解引用 `" ++ name ++ "` 前检查是否为空",
        detail := some ("例如: `if (" ++ name ++ " == NULL) \x7b /* 错误处理 */ \x7d`") } }

/-- `_build_uninitialized_pointer_issue` (memory_checker.py lines 439-453). -/
def build_uninitialized_pointer_issue (c : Cursor) (name : String) : Issue :=
  let fl := cursor_location c
  { category := "memory", severity := "error",
    message := "指针 `" ++ name ++ "` 可能未初始化却被使用。",
    file := fl.1, line := fl.2.1, column := fl.2.2,
    suggestion := some
      { title := "在使用 `" ++ name ++ "` 前赋值有效地址",
        detail := some "例如将其指向现有变量或动态分配的内存。" } }

/-- `_build_use_after_free_issue` (memory_checker.py lines 455-469). -/
def build_use_after_free_issue (c : Cursor) (name : String) : Issue :=
  let fl := cursor_location c
  { category := "memory", severity := "error",
    message := "指针 `" ++ name ++ "` 在调用 `free` 后仍被使用，可能触发 Use-After-Free。",
    file := fl.1, line := fl.2.1, column := fl.2.2,
    suggestion := some
      { title := "避免对 `" ++ name ++ "` 在释放后继续解引用",
        detail := some "释放内存后应立即将指针置为 NULL 或重新指向有效区域。" } }

/-- `_build_double_free_issue` (memory_checker.py lines 471-485). -/
def build_double_free_issue (c : Cursor) (name : String) : Issue :=
  let fl := cursor_location c
  { category := "memory", severity := "error",
    message := "指针 `" ++ name ++ "` 可能被重复释放 (double free)。",
    file := fl.1, line := fl.2.1, column := fl.2.2,
    suggestion := some
      { title := "确保每块内存仅释放一次",
        detail := some "可在释放后将指针赋值为 NULL，避免重复释放。" } }

/-- `_build_leak_issue` (memory_checker.py lines 519-533). -/
def build_leak_issue (c : Cursor) (allocs frees : Nat) : Issue :=
  let fl := cursor_location c
  let fname := c.spelling
  { category := "memory", severity := "warning",
    message := "函数 `" ++ fname ++ "` 中分配次数(" ++ toString allocs ++ ")多于释放次数(" ++ toString frees ++ ")，可能存在内存泄漏。",
    file := fl.1, line := fl.2.1, column := fl.2.2,
    suggestion := some
      { title := "为每一次动态分配配对调用 free",
        detail := some "考虑使用 goto/清理块或智能指针样式封装确保释放。" } }

/-- Out-of-bounds issue from `_check_array_bounds` (memory_checker.py
lines 570-583). -/
def build_oob_issue (c : Cursor) (base_name : String) (index_value size : Int) : Issue :=
  let fl := cursor_location c
  let bound := size - 1
  { category := "memory", severity := "error",
    message := "数组 `" ++ base_name ++ "` 的访问索引 " ++ toString index_value ++ " 超出范围 (大小为 " ++ toString size ++ ")。",
    file := fl.1, line := fl.2.1, column := fl.2.2,
    suggestion := some
      { title := "确保索引位于 0 到 " ++ toString bound ++ " 之间",
        detail := some ("当前访问的索引为 " ++ toString index_value ++ "，已超出数组 `" ++ base_name ++ "` 的大小 " ++ toString size ++ "。") } }

/-- Pointer-initialization warning from `_check_pointer_initialization`
(memory_checker.py lines 55-70). -/
def build_global_uninit_issue (c : Cursor) : Issue :=
  let fl := cursor_location c
  let nm := c.spelling
  { category := "memory", severity := "warning",
    message := "指针 `" ++ nm ++ "` 未初始化，可能导致悬空或野指针。",
    file := fl.1, line := fl.2.1, column := fl.2.2,
    suggestion := some
      { title := "在声明时初始化指针或在首次使用前赋值",
        detail := some "例如: `int *ptr = NULL;` 并确保使用前检查是否为空。" } }

/-! ### memory_checker.py — per-function state -/

/-- The mutable state of `_check_function` (memory_checker.py lines
75-89): the lattice sets, dedup sets, array extents and counters. -/
structure MemState where
  issues : List Issue
  pointer_null : List String
  local_uninitialized : List String
  pointer_vars : List String
  freed_pointers : List String
  reported_uninitialized : List (String × Nat × Nat)
  reported_null : List (String × Nat × Nat)
  reported_uaf : List (String × Nat × Nat)
  reported_double_free : List (String × Nat × Nat)
  array_sizes : List (String × Int)
  allocation_calls : Nat
  free_calls : Nat
  returns_uninitialized_pointer : Bool
  deriving Repr

/-- Translation-unit-lifetime summary state held on the checker instance
(memory_checker.py lines 16-20). -/
structure MemoryChecker where
  global_uninitialized : List String
  global_array_sizes : List (String × Int)
  leaky_functions : List String
  unsafe_pointer_returners : List String
  deriving DecidableEq, Repr

/-- `mark_initialized` (memory_checker.py lines 95-100). -/
def mark_initialized (st : MemState) (name : String) : MemState :=
  if name = "" then st
  else { st with local_uninitialized := st.local_uninitialized.erase name,
                 pointer_null := st.pointer_null.erase name,
                 freed_pointers := st.freed_pointers.erase name }

/-- `report_pointer_use` (memory_checker.py lines 102-127): use-after-free,
then null dereference, then uninitialized use, each deduplicated by
`(name, line, column or 0)`; an uninitialized use also discards the name
from the local uninitialized set. -/
def report_pointer_use (gl : MemoryChecker) (name? : Option String) (node : Cursor)
    (allow_freed : Bool) (guards : List String) (st : MemState) : MemState :=
  match name? with
  | none => st
  | some name =>
    if name = "" then st
    else
      let key := (name, node.loc.line, node.loc.column.getD 0)
      if name ∈ st.freed_pointers ∧ ¬ allow_freed then
        if key ∉ st.reported_uaf then
          { st with reported_uaf := addK st.reported_uaf key,
                    issues := st.issues ++ [build_use_after_free_issue node name] }
        else st
      else if name ∈ st.pointer_null ∧ name ∉ guards ∧ name ∉ st.freed_pointers then
        if key ∉ st.reported_null then
          { st with reported_null := addK st.reported_null key,
                    issues := st.issues ++ [build_null_deref_issue node name] }
        else st
      else if name ∈ st.local_uninitialized ∨ name ∈ gl.global_uninitialized then
        let st1 :=
          if key ∉ st.reported_uninitialized then
            { st with reported_uninitialized := addK st.reported_uninitialized key,
                      issues := st.issues ++ [build_uninitialized_pointer_issue node name] }
          else st
        { st1 with local_uninitialized := st1.local_uninitialized.erase name }
      else st

/-! ### memory_checker.py — guard extraction (lines 350-405) -/

/-- The test `right_tokens & {"NULL", "0", "nullptr"}` in
`_extract_guarded_pointers`. -/
def tokensHaveNull (c : Cursor) : Bool :=
  c.tokens.any (fun t => t = "NULL" ∨ t = "0" ∨ t = "nullptr")

/-- Second half of the `!=` branch of `_extract_guarded_pointers`
(memory_checker.py lines 384-387): try the right operand as the guarded
pointer. -/
def neqGuardRight (pv : List String) (left right : Cursor) : List String :=
  match pyOr (resolve_decl_name right) (first_decl_ref_name right) with
  | some n => if n ∈ pv ∧ tokensHaveNull left then [n] else []
  | none => []

/-- Full `!=` branch of `_extract_guarded_pointers` (memory_checker.py
lines 377-387): left operand first, then right operand. -/
def neqGuard (pv : List String) (left right : Cursor) : List String :=
  match pyOr (resolve_decl_name left) (first_decl_ref_name left) with
  | some n => if n ∈ pv ∧ tokensHaveNull right then [n] else neqGuardRight pv left right
  | none => neqGuardRight pv left right

mutual
/-- `_extract_guarded_pointers` (memory_checker.py lines 350-405):
identifiers proven non-null by the condition.  The `condition is None`
case never arises because every caller passes `children[0]`. -/
def extract_guarded_pointers (condition : Cursor) (pv : List String) : List String :=
  match condition with
  | .mk k d cs _ _ =>
    if k = .PAREN_EXPR ∨ k = .UNEXPOSED_EXPR then
      extract_guarded_pointers_list cs pv
    else if k = .BINARY_OPERATOR then
      let tokens := d.tokens
      if tokens.contains "&&" ∧ cs.length ≥ 2 then
        match cs with
        | a :: b :: _ => unionS (extract_guarded_pointers a pv) (extract_guarded_pointers b pv)
        | _ => []
      else if tokens.contains "||" then []
      else if tokens.contains "!" ∧ tokens.count "!" = 1 ∧ cs.length = 1 then []
      else if tokens.contains "!=" ∧ cs.length ≥ 2 then
        match cs with
        | left :: right :: _ => neqGuard pv left right
        | _ => []
      else []
    else if k = .DECL_REF_EXPR then
      if d.spelling ∈ pv then [d.spelling] else []
    else if k = .UNARY_OPERATOR then
      if d.tokens.headD "" = "!" ∧ ¬ d.tokens.isEmpty then []
      else
        match cs with
        | c :: _ => extract_guarded_pointers c pv
        | [] => []
    else
      extract_guarded_pointers_list cs pv

/-- Union of guard extractions over a child list (the `PAREN_EXPR`,
`UNEXPOSED_EXPR` and default branches). -/
def extract_guarded_pointers_list (cs : List Cursor) (pv : List String) : List String :=
  match cs with
  | [] => []
  | c :: rest => unionS (extract_guarded_pointers c pv) (extract_guarded_pointers_list rest pv)
end

/-! ### memory_checker.py — walk steps (lines 158-281)

`traverse` mutates closure state; each `if node.kind == ...` block below
becomes a state-passing step function.  The blocks are dispatched by
cursor kind, which is faithful because each block tests a distinct kind. -/

/-- Lazily discovered local pointer declarations (memory_checker.py lines
171-185). -/
def var_decl_step (node : Cursor) (st : MemState) : MemState :=
  match node with
  | .mk _ d cs _ _ =>
    if d.typ.kind = .POINTER then
      match d.semParentKind with
      | some pk =>
        if pk ≠ .STRUCT_DECL ∧ pk ≠ .UNION_DECL then
          if d.spelling ≠ "" then
            let st := { st with pointer_vars := addK st.pointer_vars d.spelling }
            if cs.isEmpty then
              { st with local_uninitialized := addK st.local_uninitialized d.spelling }
            else
              let init_tokens := d.tokens
              if init_tokens.contains "NULL" ∨ (¬ init_tokens.isEmpty ∧ init_tokens.getLastD "" = "0") then
                { st with pointer_null := addK st.pointer_null d.spelling }
              else mark_initialized st d.spelling
          else st
        else st
      | none => st
    else st

/-- The assignment block (memory_checker.py lines 187-206). -/
def assign_step (gl : MemoryChecker) (node : Cursor) (tokens : List String) (st : MemState) : MemState :=
  let target := resolve_assignment_target node
  let rhs_cursor := resolve_assignment_rhs node
  let raw_rhs_tokens :=
    match rhs_cursor with
    | some r => r.tokens
    | none => tokens.drop (tokens.indexOf "=" + 1)
  let rhs_tokens := raw_rhs_tokens.filter (fun t => t ≠ ";" ∧ t ≠ "," ∧ t ≠ "(" ∧ t ≠ ")")
  let callee := match rhs_cursor with
    | some r => resolve_callee (some r)
    | none => none
  match target with
  | none => st
  | some tgt =>
    if tgt ∈ st.pointer_vars then
      if callee = some "malloc" ∨ callee = some "calloc" ∨ callee = some "realloc" then
        mark_initialized st tgt
      else if (match callee with
               | some c => decide (c ≠ "" ∧ c ∈ gl.unsafe_pointer_returners)
               | none => false) then
        { st with local_uninitialized := addK st.local_uninitialized tgt }
      else if rhs_tokens.headD "" = "&" ∧ ¬ rhs_tokens.isEmpty then
        mark_initialized st tgt
      else if rhs_tokens.contains "NULL" ∨
              (rhs_tokens.length = 1 ∧ (rhs_tokens.headD "" = "0" ∨ rhs_tokens.headD "" = "nullptr")) then
        { st with pointer_null := addK st.pointer_null tgt,
                  freed_pointers := st.freed_pointers.erase tgt,
                  local_uninitialized := st.local_uninitialized.erase tgt }
      else mark_initialized st tgt
    else st

/-- Processing of one `free(...)` argument (memory_checker.py lines
215-226): double-free dedup report, pointer-use check allowing the freed
state, then mark freed and null and remember it as guard-safe. -/
def free_arg_step (gl : MemoryChecker) (guards : List String)
    (acc : MemState × List String) (argument : Cursor) : MemState × List String :=
  match pyOr (resolve_decl_name argument) (first_decl_ref_name argument) with
  | none => acc
  | some arg_name =>
    let (st, extra) := acc
    let key := (arg_name, argument.loc.line, argument.loc.column.getD 0)
    let st :=
      if arg_name ∈ st.freed_pointers ∧ key ∉ st.reported_double_free then
        { st with reported_double_free := addK st.reported_double_free key,
                  issues := st.issues ++ [build_double_free_issue argument arg_name] }
      else st
    let st := report_pointer_use gl (some arg_name) argument true guards st
    let st := { st with freed_pointers := addK st.freed_pointers arg_name,
                        pointer_null := addK st.pointer_null arg_name }
    (st, addK extra arg_name)

/-- The call block (memory_checker.py lines 208-236).  Returns the state
and the guard set for the child walk (`child_guard_context`). -/
def call_step (gl : MemoryChecker) (node : Cursor) (guards : List String) (st : MemState) :
    MemState × List String :=
  let callee := resolve_callee (some node)
  let stExtra : MemState × List String :=
    if callee = some "malloc" ∨ callee = some "calloc" ∨ callee = some "realloc" then
      ({ st with allocation_calls := st.allocation_calls + 1 }, [])
    else if callee = some "free" then
      node.arguments.foldl (free_arg_step gl guards)
        ({ st with free_calls := st.free_calls + 1 }, [])
    else (st, [])
  let st := stExtra.1
  let extra_safe := stExtra.2
  let st := node.arguments.foldl (fun st argument =>
      match pyOr (resolve_decl_name argument) (first_decl_ref_name argument) with
      | some arg_name => report_pointer_use gl (some arg_name) argument (callee = some "free") guards st
      | none => st) st
  let cg := if ¬ extra_safe.isEmpty then unionS guards extra_safe else guards
  (st, cg)

/-- The array-subscript bounds check `_check_array_bounds`
(memory_checker.py lines 554-583). -/
def check_array_bounds (node : Cursor) (array_sizes : List (String × Int)) : Option Issue :=
  match node.children with
  | base :: index_node :: _ =>
    (match resolve_decl_name base with
     | none => none
     | some base_name =>
       match getD? array_sizes base_name with
       | none => none
       | some size =>
         match extract_constant_index index_node with
         | none => none
         | some index_value =>
           if 0 ≤ index_value ∧ index_value < size then none
           else some (build_oob_issue node base_name index_value size))
  | _ => none

/-- One name of the return-statement block (memory_checker.py lines
257-261): run the pointer-use check, then set the
`returns_uninitialized_pointer` flag when the name is still recorded as
uninitialized. -/
def return_step_name (gl : MemoryChecker) (node : Cursor) (guards : List String)
    (st : MemState) (name : String) : MemState :=
  if name ∈ (report_pointer_use gl (some name) node false guards st).local_uninitialized ∨
     name ∈ gl.global_uninitialized then
    { report_pointer_use gl (some name) node false guards st with
        returns_uninitialized_pointer := true }
  else report_pointer_use gl (some name) node false guards st

/-- The return-statement block (memory_checker.py lines 255-261). -/
def return_step (gl : MemoryChecker) (node : Cursor) (guards : List String) (st : MemState) : MemState :=
  (collect_decl_ref_names node).foldl (fun st name =>
    if name ∈ st.pointer_vars ∨ name ∈ gl.global_uninitialized then
      return_step_name gl node guards st name
    else st) st

mutual
/-- The recursive `traverse` closure of `_check_function`
(memory_checker.py lines 158-281).  The `node is cursor` entry case is
handled by `check_function` starting the walk on the function's children;
the sequential `if node.kind == ...` blocks become a dispatch on the kind
(each block tests a distinct kind, so at most one fires). -/
def memTraverse (gl : MemoryChecker) (node : Cursor) (guards : List String) (st : MemState) : MemState :=
  match node with
  | .mk k d cs args sibs =>
    let tokens := d.tokens
    match k with
    -- line 165: nested FUNCTION_DECLs are not descended
    | .FUNCTION_DECL => st
    | .VAR_DECL =>
        let st := var_decl_step (.mk k d cs args sibs) st
        memTraverseList gl cs guards st
      | .BINARY_OPERATOR =>
        let st :=
          if ¬ tokens.isEmpty ∧ tokens.contains "=" then
            assign_step gl (.mk k d cs args sibs) tokens st
          else st
        memTraverseList gl cs guards st
      | .CALL_EXPR =>
        let stcg := call_step gl (.mk k d cs args sibs) guards st
        memTraverseList gl cs stcg.2 stcg.1
      | .UNARY_OPERATOR =>
        let st :=
          if ¬ tokens.isEmpty ∧ tokens.contains "*" then
            report_pointer_use gl (first_decl_ref_name (.mk k d cs args sibs)) (.mk k d cs args sibs) false guards st
          else st
        memTraverseList gl cs guards st
      | .MEMBER_REF_EXPR =>
        let st :=
          if ¬ tokens.isEmpty ∧ tokens.contains "->" then
            let base_name :=
              match cs with
              | base :: _ => resolve_decl_name base
              | [] => first_decl_ref_name (.mk k d cs args sibs)
            report_pointer_use gl base_name (.mk k d cs args sibs) false guards st
          else st
        memTraverseList gl cs guards st
      | .ARRAY_SUBSCRIPT_EXPR =>
        let base_name :=
          match cs with
          | base :: _ => resolve_decl_name base
          | [] => none
        let st := report_pointer_use gl base_name (.mk k d cs args sibs) false guards st
        let st :=
          match check_array_bounds (.mk k d cs args sibs) st.array_sizes with
          | some issue => { st with issues := st.issues ++ [issue] }
          | none => st
        memTraverseList gl cs guards st
      | .RETURN_STMT =>
        let st := return_step gl (.mk k d cs args sibs) guards st
        memTraverseList gl cs guards st
      | .IF_STMT =>
        -- lines 263-277: condition with current guards, then-branch with the
        -- extended guards, remaining children with the original guards
        match cs with
        | [] => st
        | condition :: rest =>
          let st := memTraverse gl condition guards st
          let guarded := extract_guarded_pointers condition st.pointer_vars
          let then_guards := unionS guards guarded
          match rest with
          | [] => st
          | thenBranch :: rest2 =>
            let st := memTraverse gl thenBranch then_guards st
            memTraverseList gl rest2 guards st
      | _ => memTraverseList gl cs guards st

/-- Child loop of `traverse` (memory_checker.py lines 279-280). -/
def memTraverseList (gl : MemoryChecker) (nodes : List Cursor) (guards : List String) (st : MemState) : MemState :=
  match nodes with
  | [] => st
  | c :: rest => memTraverseList gl rest guards (memTraverse gl c guards st)
end

/-- Handling of one direct child of the function before the walk
(memory_checker.py lines 134-156).  Note line 149 indexes
`init_tokens[-1]` unguarded; a declaration with children but no tokens
would raise in Python, the embedding reads `""` instead. -/
def pre_scan_child (st : MemState) (child : Cursor) : MemState :=
  if child.kind = .PARM_DECL then
    if child.typ.kind = .POINTER ∧ child.spelling ≠ "" then
      { st with pointer_vars := addK st.pointer_vars child.spelling }
    else st
  else if child.kind = .VAR_DECL ∧ child.typ.kind = .POINTER then
    let st := if child.spelling ≠ "" then { st with pointer_vars := addK st.pointer_vars child.spelling } else st
    if child.children.isEmpty then
      if child.spelling ≠ "" then { st with local_uninitialized := addK st.local_uninitialized child.spelling } else st
    else
      let init_tokens := child.tokens
      if child.spelling ≠ "" ∧ (init_tokens.contains "NULL" ∨ init_tokens.getLastD "" = "0") then
        { st with pointer_null := addK st.pointer_null child.spelling }
      else mark_initialized st child.spelling
  else if child.kind = .VAR_DECL ∧ child.typ.kind = .CONSTANTARRAY then
    match extract_array_size child.typ with
    | some size =>
      if child.spelling ≠ "" then { st with array_sizes := setD st.array_sizes child.spelling size } else st
    | none => st
  else st

/-- `_check_function` (memory_checker.py lines 72-292): build the initial
per-function state from parameters and direct children, run the walk on
the function's children with an empty guard set, then apply the leak
heuristic and the cross-function summaries. -/
def check_function (gl : MemoryChecker) (cursor : Cursor) : List Issue × MemoryChecker :=
  match cursor with
  | .mk k d cs args sibs =>
    let st0 : MemState :=
      { issues := [], pointer_null := [], local_uninitialized := [], pointer_vars := [],
        freed_pointers := [], reported_uninitialized := [], reported_null := [],
        reported_uaf := [], reported_double_free := [],
        array_sizes := gl.global_array_sizes,
        allocation_calls := 0, free_calls := 0, returns_uninitialized_pointer := false }
    -- lines 130-132: pointer parameters
    let st0 := args.foldl (fun st p =>
      if p.typ.kind = .POINTER ∧ p.spelling ≠ "" then
        { st with pointer_vars := addK st.pointer_vars p.spelling }
      else st) st0
    -- lines 134-156: direct children pre-scan
    let st0 := cs.foldl pre_scan_child st0
    -- line 282
    let st := memTraverseList gl cs [] st0
    -- lines 284-287: leak heuristic
    let issues := st.issues
    let leaky := st.allocation_calls > st.free_calls
    let issues := if leaky then issues ++ [build_leak_issue (.mk k d cs args sibs) st.allocation_calls st.free_calls] else issues
    let gl := if leaky ∧ d.spelling ≠ "" then { gl with leaky_functions := addK gl.leaky_functions d.spelling } else gl
    -- lines 289-290: unsafe pointer returners
    let gl := if st.returns_uninitialized_pointer ∧ d.spelling ≠ "" then
        { gl with unsafe_pointer_returners := addK gl.unsafe_pointer_returners d.spelling }
      else gl
    (issues, gl)

/-- `_check_pointer_initialization` (memory_checker.py lines 43-70). -/
def check_pointer_initialization (gl : MemoryChecker) (cursor : Cursor) :
    List Issue × MemoryChecker :=
  if cursor.typ.kind ≠ .POINTER then ([], gl)
  else if ¬ cursor.children.isEmpty then ([], gl)
  else
    let gl := if cursor.spelling ≠ "" then
        { gl with global_uninitialized := addK gl.global_uninitialized cursor.spelling }
      else gl
    ([build_global_uninit_issue cursor], gl)

/-- `_collect_global_array` (memory_checker.py lines 535-541). -/
def collect_global_array (gl : MemoryChecker) (cursor : Cursor) : MemoryChecker :=
  if cursor.typ.kind ≠ .CONSTANTARRAY ∨ cursor.spelling = "" then gl
  else
    match extract_array_size cursor.typ with
    | some size => { gl with global_array_sizes := setD gl.global_array_sizes cursor.spelling size }
    | none => gl

/-- The state of a freshly constructed (or freshly cleared) memory
checker (memory_checker.py lines 16-20 and 26-29). -/
def emptyMemoryChecker : MemoryChecker :=
  { global_uninitialized := [], global_array_sizes := [],
    leaky_functions := [], unsafe_pointer_returners := [] }

/-- `MemorySafetyChecker.run` (memory_checker.py lines 22-41): clear the
four summary sets, then process the in-file top-level declarations in
order.  Takes and returns the checker-instance state explicitly. -/
def memoryRun (gl0 : MemoryChecker) (context : AnalysisContext) : List Issue × MemoryChecker :=
  -- lines 26-29: the summary sets are cleared at the start of each run,
  -- so the incoming instance state gl0 is never consulted
  let empty : MemoryChecker := emptyMemoryChecker
  context.translation_unit.cursor.children.foldl (fun acc cursor =>
    if (match cursor.loc.file with
        | some f => decide (f ≠ context.source)
        | none => false) then acc
    else if cursor.kind = .VAR_DECL then
      let r := check_pointer_initialization acc.2 cursor
      (acc.1 ++ r.1, collect_global_array r.2 cursor)
    else if cursor.kind = .FUNCTION_DECL then
      let r := check_function acc.2 cursor
      (acc.1 ++ r.1, r.2)
    else acc) ([], empty)

/-! ### backend/analyzer/variable_checker.py -/

/-- Warning from `_check_var_decl` (variable_checker.py lines 38-53). -/
def build_var_uninit_issue (c : Cursor) : Issue :=
  let fl := cursor_location c
  let nm := c.spelling
  { category := "variable", severity := "warning",
    message := "变量 `" ++ nm ++ "` 在使用前可能未初始化。",
    file := fl.1, line := fl.2.1, column := fl.2.2,
    suggestion := some
      { title := "在声明 `" ++ nm ++ "` 时完成初始化",
        detail := some "例如: `int value = 0;` 或在首次使用前显式赋值。" } }

/-- Warning from `_check_function` of the variable checker
(variable_checker.py lines 89-103). -/
def build_use_before_assign_issue (c : Cursor) (name : String) : Issue :=
  let fl := cursor_location c
  { category := "variable", severity := "warning",
    message := "变量 `" ++ name ++ "` 可能在赋值前被使用。",
    file := fl.1, line := fl.2.1, column := fl.2.2,
    suggestion := some
      { title := "在引用前检查变量赋值路径",
        detail := some "可以通过初始化或在所有分支赋值来避免。" } }

/-- `_check_var_decl` (variable_checker.py lines 31-53). -/
def check_var_decl (cursor : Cursor) : List Issue :=
  if cursor.data.hasExternStorage then []
  else if ¬ cursor.children.isEmpty then []
  else [build_var_uninit_issue cursor]

/-- Document-order pre-order walk `_walk` (variable_checker.py lines
108-111), flattened over a worklist. -/
def var_walk_list : List Cursor → List Cursor
  | [] => []
  | c :: rest =>
    match c with
    | .mk k d cs args sibs => .mk k d cs args sibs :: (var_walk_list cs ++ var_walk_list rest)

/-- State of the per-function loop of the variable checker. -/
structure VarState where
  assigned : List String
  reported : List String
  issues : List Issue

/-- Loop body of `_check_function` (variable_checker.py lines 65-104). -/
def var_node_step (st : VarState) (node : Cursor) : VarState :=
  let st :=
    if node.kind = .VAR_DECL ∧ node.spelling ≠ "" ∧ ¬ node.children.isEmpty then
      { st with assigned := addK st.assigned node.spelling }
    else st
  let st :=
    if node.kind = .BINARY_OPERATOR then
      match node.children with
      | left :: _ =>
        if left.kind = .DECL_REF_EXPR ∧ left.spelling ≠ "" then
          match left.referenced with
          | some ref =>
            if ref.kind = .VAR_DECL then { st with assigned := addK st.assigned left.spelling } else st
          | none => st
        else st
      | [] => st
    else st
  if node.kind = .DECL_REF_EXPR then
    match node.referenced with
    | none => st
    | some ref =>
      if ref.kind ≠ .VAR_DECL then st
      else
        let name := node.spelling
        if name = "" ∨ name ∈ st.assigned ∨ name ∈ st.reported then st
        else { st with issues := st.issues ++ [build_use_before_assign_issue node name],
                       reported := addK st.reported name }
  else st

/-- `_check_function` of the variable checker (variable_checker.py lines
55-106). -/
def check_function_vars (cursor : Cursor) : List Issue :=
  let assigned := cursor.arguments.foldl (fun a p => if p.spelling ≠ "" then addK a p.spelling else a) []
  let st := (var_walk_list [cursor]).foldl var_node_step
    { assigned := assigned, reported := [], issues := [] }
  st.issues

/-- `VariableUsageChecker.run` (variable_checker.py lines 16-29). -/
def variableRun (context : AnalysisContext) : List Issue :=
  context.translation_unit.cursor.children.foldl (fun issues cursor =>
    if (match cursor.loc.file with
        | some f => decide (f ≠ context.source)
        | none => false) then issues
    else if cursor.kind = .VAR_DECL then issues ++ check_var_decl cursor
    else if cursor.kind = .FUNCTION_DECL then issues ++ check_function_vars cursor
    else issues) []

/-! ### backend/analyzer/stdlib_helper.py -/

/-- `REQUIRED_HEADERS` table (stdlib_helper.py lines 13-26). -/
def REQUIRED_HEADERS : String → Option String
  | "printf" => some "stdio.h"
  | "scanf" => some "stdio.h"
  | "fprintf" => some "stdio.h"
  | "sprintf" => some "stdio.h"
  | "snprintf" => some "stdio.h"
  | "malloc" => some "stdlib.h"
  | "calloc" => some "stdlib.h"
  | "realloc" => some "stdlib.h"
  | "free" => some "stdlib.h"
  | "memcpy" => some "string.h"
  | "memset" => some "string.h"
  | "strlen" => some "string.h"
  | _ => none

/-- `PRINTF_SPECIFIERS` (stdlib_helper.py line 29). -/
def PRINTF_SPECIFIERS : List Char := "diuoxXfFeEgGaAcsp".toList

/-- `_resolve_callee` of the stdlib checker (stdlib_helper.py lines
80-87). -/
def stdlib_resolve_callee (c : Cursor) : Option String :=
  let fallback : Option String :=
    let name := if c.spelling ≠ "" then c.spelling else c.displayname
    if name = "" then none else some ((name.splitOn "(").headD name)
  match c.referenced with
  | some r => if r.spelling ≠ "" then some r.spelling else fallback
  | none => fallback

/-- Python `str.strip('"')`: remove all leading and trailing quote
characters. -/
def stripQuotes (s : String) : String :=
  let cs := s.toList.dropWhile (fun ch => ch = '"')
  String.mk ((cs.reverse.dropWhile (fun ch => ch = '"')).reverse)

/-- `_extract_string_literal` (stdlib_helper.py lines 105-112). -/
def extract_string_literal (c : Cursor) : Option String :=
  match c.tokens with
  | [] => none
  | literal :: _ =>
    if literal.toList.headD ' ' = '"' ∧ literal.toList.getLastD ' ' = '"' then some (stripQuotes literal)
    else none

/-- `_parse_format_string` (stdlib_helper.py lines 114-130) over the
character list of the format string: `%%` contributes nothing, otherwise
skip flag/width/precision/length characters up to the terminal specifier. -/
theorem dropWhile_length_le {α : Type} (p : α → Bool) (l : List α) :
    (l.dropWhile p).length ≤ l.length := by
  induction l with
  | nil => simp
  | cons a t ih =>
    by_cases h : p a
    · simp only [List.dropWhile_cons, h, if_true, List.length_cons]
      omega
    · simp [List.dropWhile_cons, h]

def parse_format_chars : List Char → List Char
  | [] => []
  | c :: rest =>
    if c = '%' then
      match rest with
      | '%' :: rest2 => parse_format_chars rest2
      | other =>
        let dropped := other.dropWhile (fun ch => ch ∉ PRINTF_SPECIFIERS)
        if dropped.isEmpty then []
        else dropped.headD ' ' :: parse_format_chars dropped.tail
    else parse_format_chars rest
termination_by cs => cs.length
decreasing_by
  · simp only [List.length_cons]
    omega
  · have h1 : (other.dropWhile (fun ch => decide (ch ∉ PRINTF_SPECIFIERS))).length ≤ other.length :=
      dropWhile_length_le _ other
    have h2 : (other.dropWhile (fun ch => decide (ch ∉ PRINTF_SPECIFIERS))).tail.length ≤
        (other.dropWhile (fun ch => decide (ch ∉ PRINTF_SPECIFIERS))).length := by
      simp [List.length_tail]
    simp only [List.length_cons]
    omega
  · simp only [List.length_cons]
    omega

def parse_format_string (fmt : String) : List Char :=
  parse_format_chars fmt.toList

/-- The scanf-requires-address error issue (stdlib_helper.py lines
156-170). -/
def build_scanf_addr_issue (arg : Cursor) : Issue :=
  let fl := cursor_location arg
  { category := "stdlib", severity := "error",
    message := "`scanf` 的参数必须是变量地址或指针。",
    file := fl.1, line := fl.2.1, column := fl.2.2,
    suggestion := some
      { title := "传入变量地址",
        detail := some "示例: `scanf(\"%d\", &value);`" } }

/-- `_check_scanf_arguments` (stdlib_helper.py lines 148-171). -/
def check_scanf_arguments (arguments : List Cursor) : List Issue :=
  arguments.foldl (fun issues arg =>
    let arg_tokens := arg.tokens
    let is_pointer := arg.typ.kind = .POINTER
    let has_address_of := ¬ arg_tokens.isEmpty ∧ arg_tokens.headD "" = "&"
    if ¬ is_pointer ∧ ¬ has_address_of then issues ++ [build_scanf_addr_issue arg]
    else issues) []

/-- `_build_include_issue` (stdlib_helper.py lines 89-103). -/
def build_include_issue (c : Cursor) (callee header : String) : Issue :=
  let fl := cursor_location c
  { category := "stdlib", severity := "warning",
    message := "使用 `" ++ callee ++ "` 时缺少头文件 `<" ++ header ++ ">`。",
    file := fl.1, line := fl.2.1, column := fl.2.2,
    suggestion := some
      { title := "在头部加入 `#include <" ++ header ++ ">`",
        detail := some ("调用 `" ++ callee ++ "` 需要 `" ++ header ++ "` 提供函数声明。") } }

/-- `_build_arg_count_issue` (stdlib_helper.py lines 132-146). -/
def build_arg_count_issue (c : Cursor) (callee : String) (expected actual : Nat) : Issue :=
  let fl := cursor_location c
  { category := "stdlib", severity := "error",
    message := "`" ++ callee ++ "` 参数数量与格式化字符串不匹配。",
    file := fl.1, line := fl.2.1, column := fl.2.2,
    suggestion := some
      { title := "核对格式化字符串与参数数量",
        detail := some ("`" ++ callee ++ "` 需要 " ++ toString expected ++ " 个参数，但当前传入 " ++ toString actual ++ " 个。") } }

/-- Loop body of `StdLibHelperChecker.run` for one walked node
(stdlib_helper.py lines 41-68): missing-include check, then the
printf/scanf format logic, which is skipped entirely when the call has no
arguments or no leading string literal. -/
def stdlib_node_issues (includes : List String) (node : Cursor) : List Issue :=
  if node.kind ≠ .CALL_EXPR then []
  else
    match stdlib_resolve_callee node with
    | none => []
    | some callee =>
      if callee = "" then []
      else
        let headerIssues :=
          match REQUIRED_HEADERS callee with
          | some header => if header ∉ includes then [build_include_issue node callee header] else []
          | none => []
        let fmtIssues :=
          if callee = "printf" ∨ callee = "scanf" then
            match node.arguments with
            | [] => []
            | fmt_argument :: value_arguments =>
              match extract_string_literal fmt_argument with
              | none => []
              | some fmt_literal =>
                if fmt_literal = "" then []
                else
                  let specifiers := parse_format_string fmt_literal
                  if value_arguments.length ≠ specifiers.length then
                    [build_arg_count_issue node callee specifiers.length value_arguments.length]
                  else if callee = "scanf" then check_scanf_arguments value_arguments
                  else []
          else []
        headerIssues ++ fmtIssues

/-- Sum of cursor sizes, the termination measure of the explicit-stack
walks. -/
theorem cursor_list_map_sizeOf_lt (l : List Cursor) : (l.map sizeOf).sum < sizeOf l := by
  induction l with
  | nil => simp
  | cons a t ih => simp only [List.map_cons, List.sum_cons, List.cons.sizeOf_spec]; omega

theorem cursor_children_sizeOf_lt (c : Cursor) : (c.children.map sizeOf).sum < sizeOf c := by
  match c with
  | .mk k d cs args sibs =>
    have h := cursor_list_map_sizeOf_lt cs
    simp only [Cursor.children, Cursor.mk.sizeOf_spec]
    omega

/-- The explicit-stack DFS `_walk` shared by the stdlib and numeric
checkers (stdlib_helper.py lines 71-78, numeric_control_checker.py lines
32-39): pop, skip nodes from other files together with their subtree,
otherwise yield and push the children (`list.pop()` takes the last
element, so children are visited in reverse order). -/
def stack_walk (source : String) (stack : List Cursor) : List Cursor :=
  match stack with
  | [] => []
  | c :: rest =>
    if (match c.loc.file with
        | some f => decide (f ≠ source)
        | none => false) then stack_walk source rest
    else c :: stack_walk source (c.children.reverse ++ rest)
termination_by (stack.map sizeOf).sum
decreasing_by
  · simp only [List.map_cons, List.sum_cons]
    have : 0 < sizeOf c := by cases c; simp
    omega
  · simp only [List.map_cons, List.sum_cons, List.map_append, List.sum_append,
      List.map_reverse, List.sum_reverse]
    have := cursor_children_sizeOf_lt c
    omega

/-- `StdLibHelperChecker.run` (stdlib_helper.py lines 35-69). -/
def stdlibRun (context : AnalysisContext) : List Issue :=
  let includes := context.translation_unit.includes
  (stack_walk context.source [context.translation_unit.cursor]).foldl
    (fun issues node => issues ++ stdlib_node_issues includes node) []

/-! ### backend/analyzer/numeric_control_checker.py -/

/-- `_check_division` (numeric_control_checker.py lines 41-63): the token
right after the first `/` must be `0`. -/
def build_div_issue (c : Cursor) : Issue :=
  let fl := cursor_location c
  { category := "numeric", severity := "error",
    message := "检测到除以 0 的风险。",
    file := fl.1, line := fl.2.1, column := fl.2.2,
    suggestion := some
      { title := "在执行除法前检查分母",
        detail := some "如果分母可能为 0，可提前返回或抛出错误。" } }

def check_division (c : Cursor) : List Issue :=
  let tokens := c.tokens
  if ¬ tokens.contains "/" then []
  else
    let slash_index := tokens.indexOf "/"
    if slash_index + 1 < tokens.length ∧ tokens.getD (slash_index + 1) "" = "0" then
      [build_div_issue c]
    else []

/-- `_build_loop_issue` (numeric_control_checker.py lines 75-89). -/
def build_loop_issue (c : Cursor) : Issue :=
  let fl := cursor_location c
  { category := "control-flow", severity := "warning",
    message := "循环条件恒为真，可能导致死循环。",
    file := fl.1, line := fl.2.1, column := fl.2.2,
    suggestion := some
      { title := "为循环添加退出条件或 break",
        detail := some "确保循环条件可以变为假，或在循环体内加入跳出逻辑。" } }

/-- The unreachable-code warning (numeric_control_checker.py lines
279-293). -/
def build_unreachable_issue (c : Cursor) : Issue :=
  let fl := cursor_location c
  { category := "control-flow", severity := "warning",
    message := "存在不可达代码段。",
    file := fl.1, line := fl.2.1, column := fl.2.2,
    suggestion := some
      { title := "删除或移动不可达代码",
        detail := some "如果需要执行，请调整控制流以确保执行到。" } }

/-- Python `\s` character class. -/
def isPySpace (c : Char) : Bool :=
  c = ' ' ∨ c = '\t' ∨ c = '\n' ∨ c = '\r' ∨ c = '\x0b' ∨ c = '\x0c'

/-- `[A-Za-z_]`, the first character of the identifier regexes. -/
def isIdentStart (c : Char) : Bool :=
  ('A' ≤ c ∧ c ≤ 'Z') ∨ ('a' ≤ c ∧ c ≤ 'z') ∨ c = '_'

/-- `[A-Za-z0-9_]`, the continuation characters of the identifier regexes. -/
def isIdentCont (c : Char) : Bool :=
  isIdentStart c ∨ ('0' ≤ c ∧ c ≤ '9')

/-- Python `str.strip()` on a character list. -/
def pyStripChars (cs : List Char) : List Char :=
  ((cs.dropWhile isPySpace).reverse.dropWhile isPySpace).reverse

/-- Python `text.replace(" ", "")`. -/
def removeSpaces (s : String) : String :=
  String.mk (s.toList.filter (fun c => c ≠ ' '))

/-- Leftmost match of a suffix predicate, with its start index: models
`re.search`/`str.find` scanning positions left to right. -/
def searchIdx (p : List Char → Bool) : List Char → Option Nat
  | [] => if p [] then some 0 else none
  | c :: t => if p (c :: t) then some 0 else (searchIdx p t).map (fun i => i + 1)

/-- Leftmost match of a matcher returning data: models `re.search` with
groups. -/
def searchMatch {β : Type} (m : List Char → Option β) : List Char → Option β
  | [] => m []
  | c :: t =>
    match m (c :: t) with
    | some r => some r
    | none => searchMatch m t

/-- Does `(\+\+\s*v|v\s*\+\+)` match at this position (alternation tries
the pre-increment first, plain substring semantics, no word boundaries)? -/
def matchIncAt (v : List Char) (cs : List Char) : Bool :=
  (match cs with
   | '+' :: '+' :: r => v.isPrefixOf (r.dropWhile isPySpace)
   | _ => false) ||
  (if v.isPrefixOf cs then
     ['+', '+'].isPrefixOf ((cs.drop v.length).dropWhile isPySpace)
   else false)

/-- Same for `(--\s*v|v\s*--)`. -/
def matchDecAt (v : List Char) (cs : List Char) : Bool :=
  (match cs with
   | '-' :: '-' :: r => v.isPrefixOf (r.dropWhile isPySpace)
   | _ => false) ||
  (if v.isPrefixOf cs then
     ['-', '-'].isPrefixOf ((cs.drop v.length).dropWhile isPySpace)
   else false)

/-- Match `v\s*(OP=)\s*([^;]+)` at this position for `OP` drawn from
`opChars`; returns the operator, the greedy `[^;]+` group and the
remaining suffix after the match. -/
def matchCompoundAt (opChars : List Char) (v : List Char) (cs : List Char) :
    Option (List Char × List Char × List Char) :=
  if v.isPrefixOf cs then
    let cs1 := (cs.drop v.length).dropWhile isPySpace
    match cs1 with
    | o :: '=' :: cs2 =>
      if o ∈ opChars then
        let cs3 := cs2.dropWhile isPySpace
        let rhs := cs3.takeWhile (fun ch => ch ≠ ';')
        if rhs.isEmpty then none
        else some ([o, '='], rhs, cs3.drop rhs.length)
      else none
    | _ => none
  else none

/-- Match `v\s*=\s*([^;]+)` at this position; returns the greedy `[^;]+`
group and the remaining suffix.  Note `==` is not excluded: on `x == y`
the group is `= y`, exactly as the Python regex matches. -/
def matchAssignAt (v : List Char) (cs : List Char) : Option (List Char × List Char) :=
  if v.isPrefixOf cs then
    let cs1 := (cs.drop v.length).dropWhile isPySpace
    match cs1 with
    | '=' :: cs2 =>
      let cs3 := cs2.dropWhile isPySpace
      let rhs := cs3.takeWhile (fun ch => ch ≠ ';')
      if rhs.isEmpty then none
      else some (rhs, cs3.drop rhs.length)
    | _ => none
  else none

/-- Match `v\s*=\s*v\s*([+\-])\s*([^;]+)` at this position; returns the
sign and the `[^;]+` group. -/
def matchAssignVarAt (v : List Char) (cs : List Char) : Option (Char × List Char) :=
  if v.isPrefixOf cs then
    let cs1 := (cs.drop v.length).dropWhile isPySpace
    match cs1 with
    | '=' :: cs2 =>
      let cs3 := cs2.dropWhile isPySpace
      if v.isPrefixOf cs3 then
        let cs4 := (cs3.drop v.length).dropWhile isPySpace
        match cs4 with
        | sign :: cs5 =>
          if sign = '+' ∨ sign = '-' then
            let cs6 := cs5.dropWhile isPySpace
            let rhs := cs6.takeWhile (fun ch => ch ≠ ';')
            if rhs.isEmpty then none else some (sign, rhs)
          else none
        | [] => none
      else none
    | _ => none
  else none

/-- The `compound_pattern.finditer` loop of `_variable_modified`
(numeric_control_checker.py lines 222-231): scan for non-overlapping
matches left to right; matches after the `continue` keyword and matches
whose stripped right-hand side is a zero literal are skipped, any other
match means the variable is modified.  `fuel` bounds the scan by the text
length. -/
def compoundScan (v : List Char) (ci : Option Nat) : Nat → List Char → Nat → Bool
  | 0, _, _ => false
  | _ + 1, [], _ => false
  | fuel + 1, c :: t, pos =>
    match matchCompoundAt ['+', '-', '*', '/'] v (c :: t) with
    | some (_op, rhs, rest) =>
      let len := (c :: t).length - rest.length
      let step := max len 1
      let skipByCont := match ci with
        | some cidx => decide (pos > cidx)
        | none => false
      let rhsS := pyStripChars rhs
      if skipByCont then compoundScan v ci fuel ((c :: t).drop step) (pos + step)
      else if rhsS = ['0'] ∨ rhsS = "0.0".toList ∨ rhsS = "0f".toList ∨ rhsS = "0F".toList then
        compoundScan v ci fuel ((c :: t).drop step) (pos + step)
      else true
    | none => compoundScan v ci fuel t (pos + 1)

/-- The `assign_pattern.finditer` loop of `_variable_modified`
(numeric_control_checker.py lines 233-241): a match after `continue` or
whose right-hand side is `v` or `(v)` is skipped, any other match means
the variable is modified. -/
def assignScan (v : List Char) (ci : Option Nat) : Nat → List Char → Nat → Bool
  | 0, _, _ => false
  | _ + 1, [], _ => false
  | fuel + 1, c :: t, pos =>
    match matchAssignAt v (c :: t) with
    | some (rhs, rest) =>
      let len := (c :: t).length - rest.length
      let step := max len 1
      let skipByCont := match ci with
        | some cidx => decide (pos > cidx)
        | none => false
      let rhsS := pyStripChars rhs
      if skipByCont then assignScan v ci fuel ((c :: t).drop step) (pos + step)
      else if rhsS = v ∨ rhsS = '(' :: v ++ [')'] then
        assignScan v ci fuel ((c :: t).drop step) (pos + step)
      else true
    | none => assignScan v ci fuel t (pos + 1)

/-- `_variable_modified` (numeric_control_checker.py lines 202-243): the
body token stream, joined with single spaces, is scanned for
increment/decrement, compound-assignment and plain-assignment patterns
before any `continue` keyword. -/
def variable_modified (body_cursor : Option Cursor) (var : String) : Bool :=
  match body_cursor with
  | none => false
  | some body =>
    let tokens := body.tokens
    if tokens.isEmpty then false
    else
      let text := (String.intercalate " " tokens).toList
      let v := var.toList
      let continue_index := searchIdx (fun cs => "continue".toList.isPrefixOf cs) text
      let beforeCont : Nat → Bool := fun i =>
        match continue_index with
        | none => true
        | some cidx => decide (i < cidx)
      if (match searchIdx (matchIncAt v) text with
          | some i => beforeCont i
          | none => false) then true
      else if (match searchIdx (matchDecAt v) text with
          | some i => beforeCont i
          | none => false) then true
      else if compoundScan v continue_index text.length text 0 then true
      else assignScan v continue_index text.length text 0

/-- `_analyze_increment` (numeric_control_checker.py lines 245-271). -/
def analyze_increment (var : String) (increment_cursor : Option Cursor) : String :=
  let increment_text :=
    match increment_cursor with
    | some c => String.join c.tokens
    | none => ""
  if increment_text = "" then "none"
  else
    let cs := increment_text.toList
    let v := var.toList
    if (searchIdx (matchIncAt v) cs).isSome then "up"
    else if (searchIdx (matchDecAt v) cs).isSome then "down"
    else
      match searchMatch (matchCompoundAt ['+', '-'] v) cs with
      | some (op, rhs, _) =>
        let rhsS := pyStripChars rhs
        if rhsS.headD ' ' = '-' then (if op = ['+', '='] then "down" else "up")
        else (if op = ['+', '='] then "up" else "down")
      | none =>
        match searchMatch (matchAssignVarAt v) cs with
        | some (sign, rhs) =>
          let rhsS := pyStripChars rhs
          if rhsS.headD ' ' = '-' then (if sign = '+' then "down" else "up")
          else (if sign = '+' then "up" else "down")
        | none => "none"

/-- `_split_while_children` (numeric_control_checker.py lines 160-169):
the body is the last `COMPOUND_STMT` child, the condition the first
non-compound child. -/
def split_while_children (c : Cursor) : Option Cursor × Option Cursor :=
  c.children.foldl (fun acc child =>
    if child.kind = .COMPOUND_STMT then (acc.1, some child)
    else
      match acc.1 with
      | none => (some child, acc.2)
      | some _ => acc) (none, none)

/-- `_split_for_children` (numeric_control_checker.py lines 171-186). -/
def split_for_children (c : Cursor) :
    Option Cursor × Option Cursor × Option Cursor × Option Cursor :=
  c.children.foldl (fun acc child =>
    if child.kind = .COMPOUND_STMT then (acc.1, acc.2.1, acc.2.2.1, some child)
    else
      match acc.1 with
      | none => (some child, acc.2.1, acc.2.2.1, acc.2.2.2)
      | some _ =>
        match acc.2.1 with
        | none => (acc.1, some child, acc.2.2.1, acc.2.2.2)
        | some _ =>
          match acc.2.2.1 with
          | none => (acc.1, acc.2.1, some child, acc.2.2.2)
          | some _ => acc) (none, none, none, none)

/-- `_extract_condition_variable` (numeric_control_checker.py lines
188-200): the leading-identifier regex, then the rejection tests on
the raw text. -/
def extract_condition_variable (condition_text : String) : Option String :=
  if condition_text = "" then none
  else
    let text := pyStripChars condition_text.toList
    let afterParen :=
      match text with
      | '(' :: r => r
      | _ => text
    let afterSpace := afterParen.dropWhile isPySpace
    match afterSpace with
    | c :: _ =>
      if isIdentStart c then
        let symbol := String.mk (afterSpace.takeWhile isIdentCont)
        if text.any (fun ch => ch = '<' ∨ ch = '>' ∨ ch = '=') then none
        else if (searchIdx (fun cs => ['!', '='].isPrefixOf cs) text).isSome ∧
                ¬ text.contains '0' then none
        else some symbol
      else none
    | [] => none

/-- The relational regex `([A-Za-z_][A-Za-z0-9_]*)\s*(<=|>=|<|>)\s*(.+)`
anchored at the start (numeric_control_checker.py lines 128, 146):
two-character operators are tried first, and `(.+)` requires at least one
character after the operator (`\s*` backtracks, so a lone space
suffices). -/
def relationalMatch (s : String) : Option (String × String) :=
  let cs := s.toList.dropWhile isPySpace
  match cs with
  | c :: _ =>
    if isIdentStart c then
      let v := cs.takeWhile isIdentCont
      let cs1 := (cs.drop v.length).dropWhile isPySpace
      let opRest : Option (String × List Char) :=
        match cs1 with
        | '<' :: '=' :: r => some ("<=", r)
        | '>' :: '=' :: r => some (">=", r)
        | '<' :: r => some ("<", r)
        | '>' :: r => some (">", r)
        | _ => none
      match opRest with
      | some (op, r) => if r.isEmpty then none else some (String.mk v, op)
      | none => none
    else none
  | [] => none

/-- `_loop_is_definitely_infinite` (numeric_control_checker.py lines
112-158).  The `tokens`/`text` parameters of the Python function are
computed but unused, so they are omitted here. -/
def loop_is_definitely_infinite (cursor : Cursor) : Bool :=
  if cursor.kind = .WHILE_STMT then
    let split := split_while_children cursor
    let condition_cursor := split.1
    let body_cursor := split.2
    let condition_text :=
      match condition_cursor with
      | some c => String.join c.tokens
      | none => ""
    let condition_clean := removeSpaces condition_text
    if condition_clean = "1" ∨ condition_clean = "(1)" ∨
       condition_clean = "true" ∨ condition_clean = "(true)" then true
    else
      let simple_var := extract_condition_variable condition_text
      if (match simple_var with
          | some v => decide (v ≠ "") && ! variable_modified body_cursor v
          | none => false) then true
      else
        match relationalMatch condition_clean with
        | some (v, _op) => ! variable_modified body_cursor v
        | none => false
  else if cursor.kind = .FOR_STMT then
    let split := split_for_children cursor
    let cond_cursor := split.2.1
    let inc_cursor := split.2.2.1
    let cond_text :=
      match cond_cursor with
      | some c => String.join c.tokens
      | none => ""
    let cond_clean := removeSpaces cond_text
    if cond_clean = "" then true
    else if cond_clean = "1" ∨ cond_clean = "true" then true
    else if (searchIdx (fun cs => ['!', '='].isPrefixOf cs) cond_clean.toList).isSome ∨
            (searchIdx (fun cs => ['=', '='].isPrefixOf cs) cond_clean.toList).isSome then true
    else
      match relationalMatch cond_clean with
      | some (v, op) =>
        let direction := analyze_increment v inc_cursor
        if direction = "none" then true
        else if direction = "up" ∧ (op = ">" ∨ op = ">=") then true
        else if direction = "down" ∧ (op = "<" ∨ op = "<=") then true
        else false
      | none => false
  else false

/-- `_is_reachable` (numeric_control_checker.py lines 91-110): scan the
semantic parent's children up to the node itself; an earlier `return`,
`break` or provably-infinite loop (in the same file) makes it
unreachable. -/
def reachLoop (cursor : Cursor) : List Cursor → Bool
  | [] => true
  | child :: rest =>
    if Cursor.beq child cursor then true
    else if (match child.loc.file with
             | some f => decide (some f ≠ cursor.loc.file)
             | none => false) then reachLoop cursor rest
    else if child.kind = .RETURN_STMT ∨ child.kind = .BREAK_STMT then false
    else if child.kind = .WHILE_STMT ∨ child.kind = .FOR_STMT then
      if loop_is_definitely_infinite child then false else reachLoop cursor rest
    else reachLoop cursor rest

def is_reachable (cursor : Cursor) : Bool :=
  match cursor.semParentKind with
  | none => true
  | some _ => reachLoop cursor cursor.semSiblings

/-- `_check_loop` (numeric_control_checker.py lines 65-73). -/
def check_loop (cursor : Cursor) : List Issue :=
  if ¬ is_reachable cursor then []
  else if loop_is_definitely_infinite cursor then [build_loop_issue cursor]
  else []

/-- `_check_unreachable` (numeric_control_checker.py lines 273-302): one
warning on the sibling right after the first terminal statement. -/
def unreachableScan : List Cursor → List Issue
  | [] => []
  | child :: rest =>
    if child.kind = .RETURN_STMT ∨ child.kind = .BREAK_STMT ∨ child.kind = .CONTINUE_STMT then
      match rest with
      | next :: _ => [build_unreachable_issue next]
      | [] => []
    else unreachableScan rest

def check_unreachable (cursor : Cursor) : List Issue :=
  unreachableScan cursor.children

/-- `NumericControlChecker.run` (numeric_control_checker.py lines 18-30). -/
def numericRun (context : AnalysisContext) : List Issue :=
  (stack_walk context.source [context.translation_unit.cursor]).foldl
    (fun issues node =>
      if node.kind = .BINARY_OPERATOR then issues ++ check_division node
      else if node.kind = .WHILE_STMT ∨ node.kind = .FOR_STMT then issues ++ check_loop node
      else if node.kind = .COMPOUND_STMT then issues ++ check_unreachable node
      else issues) []

/-! ### backend/analyzer/runner.py -/

/-- The single infrastructure finding built when parsing raises
(runner.py lines 33-43). -/
def infra_issue (source msg : String) : Issue :=
  { category := "infrastructure", severity := "error",
    message := "解析源码时出错: " ++ msg,
    file := source, line := 0, column := none, suggestion := none }

/-- The `stop_on_error` test between checkers (runner.py line 54). -/
def stopNow (cfg : AnalyzerConfig) (issues : List Issue) : Bool :=
  cfg.stop_on_error && issues.any (fun i => i.severity == "error")

/-- `AnalyzerRunner.analyze` (runner.py lines 30-58).  The frontend is a
parameter (`self.parser.parse`): given the compile args and the source
path it either raises (`Except.error` carries `str(exc)`) or returns a
translation unit.  The memory checker's instance state is threaded
explicitly; the other checkers are stateless.  Checkers run in the fixed
order Memory, Variable, Stdlib, Numeric (runner.py lines 23-28), each
skipped once an error finding has been collected under `stop_on_error`,
and the collected findings are sorted by `_issue_sort_key`. -/
def analyze (frontend : List String → String → Except String TranslationUnit)
    (cfg : AnalyzerConfig) (gl : MemoryChecker) (source : String) :
    Report × MemoryChecker :=
  match frontend cfg.compile_args source with
  | .error exc => ({ source := source, issues := [infra_issue source exc] }, gl)
  | .ok tu =>
    let context : AnalysisContext :=
      { source := source, translation_unit := tu, compile_args := cfg.compile_args }
    let mem := memoryRun gl context
    let issues := mem.1
    let issues := if stopNow cfg issues then issues else issues ++ variableRun context
    let issues := if stopNow cfg issues then issues else issues ++ stdlibRun context
    let issues := if stopNow cfg issues then issues else issues ++ numericRun context
    ({ source := source, issues := stableSort issueLE issues }, mem.2)

/-! ### String disambiguation toolkit

The memory checker's findings are distinguished by their fixed message
and suggestion-title skeletons; these lemmas let us separate finding
kinds for arbitrary interpolated identifier names. -/

theorem string_eq_of_data {s t : String} (h : s.data = t.data) : s = t := by
  cases s; cases t; simp_all

/-- Two strings with incomparable constant prefixes are different, no
matter what follows the prefixes. -/
theorem append_pre_ne (C D s t : String)
    (h1 : C.data.isPrefixOf D.data = false)
    (h2 : D.data.isPrefixOf C.data = false) :
    C ++ s ≠ D ++ t := by
  intro he
  have hd : C.data ++ s.data = D.data ++ t.data := by
    have h3 := congrArg String.data he
    simpa [String.data_append] using h3
  have hcp : C.data <+: (D.data ++ t.data) := ⟨s.data, hd⟩
  have hdp : D.data <+: (D.data ++ t.data) := ⟨t.data, rfl⟩
  rcases List.prefix_or_prefix_of_prefix hcp hdp with hp | hp
  · rw [← List.isPrefixOf_iff_prefix] at hp
    simp [h1] at hp
  · rw [← List.isPrefixOf_iff_prefix] at hp
    simp [h2] at hp

/-- Cancellation around a middle segment: equal constant prefix and
suffix force the middles to agree. -/
theorem append_mid_inj {C E s t : String} (h : C ++ s ++ E = C ++ t ++ E) : s = t := by
  have hd : C.data ++ (s.data ++ E.data) = C.data ++ (t.data ++ E.data) := by
    have h3 := congrArg String.data h
    simpa [String.data_append, List.append_assoc] using h3
  have h4 := List.append_cancel_left hd
  have h5 := List.append_cancel_right h4
  exact string_eq_of_data h5

/-- Null-dereference findings are injective in the pointer name. -/
theorem null_deref_inj {n n' : Cursor} {a b : String}
    (h : build_null_deref_issue n a = build_null_deref_issue n' b) : a = b := by
  simp only [build_null_deref_issue, Issue.mk.injEq, Option.some.injEq,
    Suggestion.mk.injEq] at h
  exact append_mid_inj h.2.2.1

theorem uaf_ne_null (n n' : Cursor) (a b : String) :
    build_use_after_free_issue n a ≠ build_null_deref_issue n' b := by
  intro h
  simp only [build_use_after_free_issue, build_null_deref_issue, Issue.mk.injEq,
    Option.some.injEq, Suggestion.mk.injEq] at h
  have ht := h.2.2.2.2.2.2.1
  rw [String.append_assoc, String.append_assoc] at ht
  exact append_pre_ne "避免对 `" "在解引用 `" _ _ (by decide) (by decide) ht

theorem uninit_ne_null (n n' : Cursor) (a b : String) :
    build_uninitialized_pointer_issue n a ≠ build_null_deref_issue n' b := by
  intro h
  simp only [build_uninitialized_pointer_issue, build_null_deref_issue, Issue.mk.injEq,
    Option.some.injEq, Suggestion.mk.injEq] at h
  have ht := h.2.2.2.2.2.2.1
  rw [String.append_assoc, String.append_assoc] at ht
  exact append_pre_ne "在使用 `" "在解引用 `" _ _ (by decide) (by decide) ht

theorem double_free_ne_null (n n' : Cursor) (a b : String) :
    build_double_free_issue n a ≠ build_null_deref_issue n' b := by
  intro h
  simp only [build_double_free_issue, build_null_deref_issue, Issue.mk.injEq,
    Option.some.injEq, Suggestion.mk.injEq] at h
  have ht := h.2.2.2.2.2.2.1
  rw [String.append_assoc, show ("确保每块内存仅释放一次" : String) = "确保每块内存仅释放一次" ++ "" from rfl] at ht
  exact append_pre_ne "确保每块内存仅释放一次" "在解引用 `" _ _ (by decide) (by decide) ht

theorem oob_ne_null (n n' : Cursor) (a : String) (iv sz : Int) (b : String) :
    build_oob_issue n a iv sz ≠ build_null_deref_issue n' b := by
  intro h
  simp only [build_oob_issue, build_null_deref_issue, Issue.mk.injEq,
    Option.some.injEq, Suggestion.mk.injEq] at h
  have ht := h.2.2.2.2.2.2.1
  rw [String.append_assoc, String.append_assoc] at ht
  exact append_pre_ne "确保索引位于 0 到 " "在解引用 `" _ _ (by decide) (by decide) ht

/-! ### Invariants of the memory walk -/

/-- No finding in the list is a null-dereference finding for pointer `p`. -/
def NoNullFor (p : String) (issues : List Issue) : Prop :=
  ∀ i ∈ issues, ∀ n : Cursor, i ≠ build_null_deref_issue n p

/-- The §8 closed sets for severities and categories. -/
def ValidIssue (i : Issue) : Prop :=
  i.severity ∈ (["error", "warning", "info"] : List String) ∧
  i.category ∈ (["memory", "variable", "stdlib", "numeric", "control-flow", "infrastructure"] : List String)

def ValidIssues (issues : List Issue) : Prop := ∀ i ∈ issues, ValidIssue i

theorem noNull_append_one {p : String} {l : List Issue} {i : Issue}
    (h : NoNullFor p l) (hi : ∀ n, i ≠ build_null_deref_issue n p) :
    NoNullFor p (l ++ [i]) := by
  intro j hj n
  rcases List.mem_append.1 hj with hj | hj
  · exact h j hj n
  · simp only [List.mem_singleton] at hj
    subst hj
    exact hi n

theorem valid_append_one {l : List Issue} {i : Issue}
    (h : ValidIssues l) (hi : ValidIssue i) : ValidIssues (l ++ [i]) := by
  intro j hj
  rcases List.mem_append.1 hj with hj | hj
  · exact h j hj
  · simp only [List.mem_singleton] at hj
    subst hj
    exact hi

theorem valid_append {l1 l2 : List Issue}
    (h1 : ValidIssues l1) (h2 : ValidIssues l2) : ValidIssues (l1 ++ l2) := by
  intro j hj
  rcases List.mem_append.1 hj with hj | hj
  · exact h1 j hj
  · exact h2 j hj

theorem valid_build_null (n : Cursor) (a : String) : ValidIssue (build_null_deref_issue n a) := by
  simp [ValidIssue, build_null_deref_issue]

theorem valid_build_uninit (n : Cursor) (a : String) :
    ValidIssue (build_uninitialized_pointer_issue n a) := by
  simp [ValidIssue, build_uninitialized_pointer_issue]

theorem valid_build_uaf (n : Cursor) (a : String) :
    ValidIssue (build_use_after_free_issue n a) := by
  simp [ValidIssue, build_use_after_free_issue]

theorem valid_build_double_free (n : Cursor) (a : String) :
    ValidIssue (build_double_free_issue n a) := by
  simp [ValidIssue, build_double_free_issue]

theorem valid_build_leak (n : Cursor) (a f : Nat) : ValidIssue (build_leak_issue n a f) := by
  simp [ValidIssue, build_leak_issue]

theorem valid_build_oob (n : Cursor) (a : String) (iv sz : Int) :
    ValidIssue (build_oob_issue n a iv sz) := by
  simp [ValidIssue, build_oob_issue]

theorem valid_build_global_uninit (n : Cursor) : ValidIssue (build_global_uninit_issue n) := by
  simp [ValidIssue, build_global_uninit_issue]

/-- `report_pointer_use` never emits a null-dereference finding for a
pointer in the guard set (and preserves the invariant for findings
already present). -/
theorem report_pointer_use_noNull (gl : MemoryChecker) (name? : Option String) (node : Cursor)
    (af : Bool) (guards : List String) (st : MemState) (p : String)
    (hp : p ∈ guards) (h : NoNullFor p st.issues) :
    NoNullFor p (report_pointer_use gl name? node af guards st).issues := by
  unfold report_pointer_use
  match name? with
  | none => exact h
  | some name =>
    dsimp only
    split
    · exact h
    · split
      · split
        · exact noNull_append_one h (fun n => uaf_ne_null node n name p)
        · exact h
      · split
        · rename_i hnull
          split
          · refine noNull_append_one h (fun n heq => ?_)
            have hnp : name = p := null_deref_inj heq
            subst hnp
            exact hnull.2.1 hp
          · exact h
        · split
          · split
            · exact noNull_append_one h (fun n => uninit_ne_null node n name p)
            · exact h
          · exact h

/-- `report_pointer_use` only appends findings with valid severity and
category. -/
theorem report_pointer_use_valid (gl : MemoryChecker) (name? : Option String) (node : Cursor)
    (af : Bool) (guards : List String) (st : MemState)
    (h : ValidIssues st.issues) :
    ValidIssues (report_pointer_use gl name? node af guards st).issues := by
  unfold report_pointer_use
  match name? with
  | none => exact h
  | some name =>
    dsimp only
    split
    · exact h
    · split
      · split
        · exact valid_append_one h (valid_build_uaf node name)
        · exact h
      · split
        · split
          · exact valid_append_one h (valid_build_null node name)
          · exact h
        · split
          · split
            · exact valid_append_one h (valid_build_uninit node name)
            · exact h
          · exact h

theorem mark_initialized_issues (st : MemState) (name : String) :
    (mark_initialized st name).issues = st.issues := by
  unfold mark_initialized
  split <;> rfl

theorem var_decl_step_issues (node : Cursor) (st : MemState) :
    (var_decl_step node st).issues = st.issues := by
  unfold var_decl_step
  match node with
  | .mk k d cs args sibs =>
    dsimp only
    split
    · split
      · split
        · split
          · split
            · rfl
            · split
              · rfl
              · exact mark_initialized_issues _ _
          · rfl
        · rfl
      · rfl
    · rfl

theorem assign_step_issues (gl : MemoryChecker) (node : Cursor) (tokens : List String)
    (st : MemState) : (assign_step gl node tokens st).issues = st.issues := by
  unfold assign_step
  dsimp only
  split
  · rfl
  · split
    · split
      · exact mark_initialized_issues _ _
      · split
        · rfl
        · split
          · exact mark_initialized_issues _ _
          · split
            · rfl
            · exact mark_initialized_issues _ _
    · rfl

theorem free_arg_step_noNull (gl : MemoryChecker) (guards : List String)
    (acc : MemState × List String) (argument : Cursor) (p : String)
    (hp : p ∈ guards) (h : NoNullFor p acc.1.issues) :
    NoNullFor p (free_arg_step gl guards acc argument).1.issues := by
  unfold free_arg_step
  split
  · exact h
  · dsimp only
    apply report_pointer_use_noNull _ _ _ _ _ _ _ hp
    split
    · exact noNull_append_one h (fun n => double_free_ne_null argument n _ p)
    · exact h

theorem free_arg_step_valid (gl : MemoryChecker) (guards : List String)
    (acc : MemState × List String) (argument : Cursor)
    (h : ValidIssues acc.1.issues) :
    ValidIssues (free_arg_step gl guards acc argument).1.issues := by
  unfold free_arg_step
  split
  · exact h
  · dsimp only
    apply report_pointer_use_valid
    split
    · exact valid_append_one h (valid_build_double_free argument _)
    · exact h

theorem foldl_preserve {β : Type} {P : MemState → Prop}
    (f : MemState → β → MemState) (hf : ∀ st b, P st → P (f st b)) :
    ∀ (l : List β) (st : MemState), P st → P (l.foldl f st) := by
  intro l
  induction l with
  | nil => intro st h; exact h
  | cons b t ih => intro st h; exact ih _ (hf st b h)

theorem foldl_pair_preserve {β : Type} {P : MemState × List String → Prop}
    (f : MemState × List String → β → MemState × List String)
    (hf : ∀ st b, P st → P (f st b)) :
    ∀ (l : List β) (st : MemState × List String), P st → P (l.foldl f st) := by
  intro l
  induction l with
  | nil => intro st h; exact h
  | cons b t ih => intro st h; exact ih _ (hf st b h)

theorem call_step_noNull (gl : MemoryChecker) (node : Cursor) (guards : List String)
    (st : MemState) (p : String) (hp : p ∈ guards) (h : NoNullFor p st.issues) :
    NoNullFor p (call_step gl node guards st).1.issues := by
  unfold call_step
  dsimp only
  apply foldl_preserve (P := fun st => NoNullFor p st.issues)
  · intro st' b hb
    split
    · exact report_pointer_use_noNull _ _ _ _ _ _ _ hp hb
    · exact hb
  · split
    · exact h
    · split
      · exact foldl_pair_preserve (P := fun acc => NoNullFor p acc.1.issues)
          _ (fun acc b hb => free_arg_step_noNull gl guards acc b p hp hb) _ _ h
      · exact h

theorem call_step_valid (gl : MemoryChecker) (node : Cursor) (guards : List String)
    (st : MemState) (h : ValidIssues st.issues) :
    ValidIssues (call_step gl node guards st).1.issues := by
  unfold call_step
  dsimp only
  apply foldl_preserve (P := fun st => ValidIssues st.issues)
  · intro st' b hb
    split
    · exact report_pointer_use_valid _ _ _ _ _ _ hb
    · exact hb
  · split
    · exact h
    · split
      · exact foldl_pair_preserve (P := fun acc => ValidIssues acc.1.issues)
          _ (fun acc b hb => free_arg_step_valid gl guards acc b hb) _ _ h
      · exact h

theorem unionS_mem_left {a b : List String} {p : String} (hp : p ∈ a) : p ∈ unionS a b := by
  simp [unionS, hp]

theorem unionS_mem_right {a b : List String} {p : String} (hp : p ∈ b) : p ∈ unionS a b := by
  by_cases hpa : p ∈ a
  · exact unionS_mem_left hpa
  · simp [unionS, hp, hpa]

/-- The guard context returned by `call_step` extends the incoming
guards. -/
theorem call_step_guards_mono (gl : MemoryChecker) (node : Cursor) (guards : List String)
    (st : MemState) (p : String) (hp : p ∈ guards) :
    p ∈ (call_step gl node guards st).2 := by
  unfold call_step
  dsimp only
  split_ifs <;> first
    | exact unionS_mem_left hp
    | exact hp

theorem return_step_name_noNull (gl : MemoryChecker) (node : Cursor) (guards : List String)
    (st : MemState) (name p : String) (hp : p ∈ guards) (h : NoNullFor p st.issues) :
    NoNullFor p (return_step_name gl node guards st name).issues := by
  unfold return_step_name
  split
  · exact report_pointer_use_noNull _ _ _ _ _ _ _ hp h
  · exact report_pointer_use_noNull _ _ _ _ _ _ _ hp h

theorem return_step_noNull (gl : MemoryChecker) (node : Cursor) (guards : List String)
    (st : MemState) (p : String) (hp : p ∈ guards) (h : NoNullFor p st.issues) :
    NoNullFor p (return_step gl node guards st).issues := by
  unfold return_step
  apply foldl_preserve (P := fun st => NoNullFor p st.issues)
  · intro st' b hb
    split
    · exact return_step_name_noNull _ _ _ _ _ _ hp hb
    · exact hb
  · exact h

theorem return_step_name_valid (gl : MemoryChecker) (node : Cursor) (guards : List String)
    (st : MemState) (name : String) (h : ValidIssues st.issues) :
    ValidIssues (return_step_name gl node guards st name).issues := by
  unfold return_step_name
  split
  · exact report_pointer_use_valid _ _ _ _ _ _ h
  · exact report_pointer_use_valid _ _ _ _ _ _ h

theorem return_step_valid (gl : MemoryChecker) (node : Cursor) (guards : List String)
    (st : MemState) (h : ValidIssues st.issues) :
    ValidIssues (return_step gl node guards st).issues := by
  unfold return_step
  apply foldl_preserve (P := fun st => ValidIssues st.issues)
  · intro st' b hb
    split
    · exact return_step_name_valid _ _ _ _ _ hb
    · exact hb
  · exact h

theorem check_array_bounds_shape (node : Cursor) (sizes : List (String × Int)) (i : Issue)
    (h : check_array_bounds node sizes = some i) :
    ∃ b iv sz, i = build_oob_issue node b iv sz := by
  unfold check_array_bounds at h
  split at h
  · split at h
    · simp at h
    · split at h
      · simp at h
      · split at h
        · simp at h
        · split at h
          · simp at h
          · exact ⟨_, _, _, (Option.some.inj h).symm⟩
  · simp at h

set_option maxHeartbeats 3200000 in
/-- Joint invariant of the per-function walk: (1) walking any subtree
with a guard set containing `p` adds no null-dereference finding for `p`
(guard sets only ever grow along the recursion), and (2) every finding it
appends has a severity and category from the closed sets. -/
theorem memTraverse_invariants (gl : MemoryChecker) :
    (∀ (node : Cursor) (guards : List String) (st : MemState),
       (∀ p, p ∈ guards → NoNullFor p st.issues → NoNullFor p (memTraverse gl node guards st).issues) ∧
       (ValidIssues st.issues → ValidIssues (memTraverse gl node guards st).issues)) ∧
    (∀ (nodes : List Cursor) (guards : List String) (st : MemState),
       (∀ p, p ∈ guards → NoNullFor p st.issues → NoNullFor p (memTraverseList gl nodes guards st).issues) ∧
       (ValidIssues st.issues → ValidIssues (memTraverseList gl nodes guards st).issues)) := by
  apply memTraverse.mutual_induct gl
  case case1 =>
    intro guards st d cs args sibs
    refine ⟨fun p hp h => ?_, fun hv => ?_⟩ <;> simp only [memTraverse] <;> assumption
  case case2 =>
    intro guards st d cs args sibs st1 ih
    refine ⟨fun p hp h => ?_, fun hv => ?_⟩ <;> simp only [memTraverse]
    · exact ih.1 p hp (by rw [var_decl_step_issues]; exact h)
    · exact ih.2 (by rw [var_decl_step_issues]; exact hv)
  case case3 =>
    intro guards st d cs args sibs tokens st1 ih
    refine ⟨fun p hp h => ?_, fun hv => ?_⟩ <;> simp only [memTraverse]
    · refine ih.1 p hp ?_
      unfold st1
      split
      · rw [assign_step_issues]; exact h
      · exact h
    · refine ih.2 ?_
      unfold st1
      split
      · rw [assign_step_issues]; exact hv
      · exact hv
  case case4 =>
    intro guards st d cs args sibs stcg ih
    refine ⟨fun p hp h => ?_, fun hv => ?_⟩ <;> simp only [memTraverse]
    · exact ih.1 p (call_step_guards_mono gl _ guards st p hp) (call_step_noNull gl _ guards st p hp h)
    · exact ih.2 (call_step_valid gl _ guards st hv)
  case case5 =>
    intro guards st d cs args sibs tokens st1 ih
    refine ⟨fun p hp h => ?_, fun hv => ?_⟩ <;> simp only [memTraverse]
    · refine ih.1 p hp ?_
      unfold st1
      split
      · exact report_pointer_use_noNull _ _ _ _ _ _ _ hp h
      · exact h
    · refine ih.2 ?_
      unfold st1
      split
      · exact report_pointer_use_valid _ _ _ _ _ _ hv
      · exact hv
  case case6 =>
    intro guards st d cs args sibs tokens st1 ih
    refine ⟨fun p hp h => ?_, fun hv => ?_⟩ <;> simp only [memTraverse]
    · refine ih.1 p hp ?_
      unfold st1
      split
      · exact report_pointer_use_noNull _ _ _ _ _ _ _ hp h
      · exact h
    · refine ih.2 ?_
      unfold st1
      split
      · exact report_pointer_use_valid _ _ _ _ _ _ hv
      · exact hv
  case case7 =>
    intro guards st d cs args sibs bn st1 st2 ih
    refine ⟨fun p hp h => ?_, fun hv => ?_⟩ <;> simp only [memTraverse]
    · refine ih.1 p hp ?_
      have h1 := report_pointer_use_noNull gl bn (Cursor.mk .ARRAY_SUBSCRIPT_EXPR d cs args sibs) false guards st p hp h
      unfold st2 st1
      split
      · rename_i issue hsome
        obtain ⟨b, iv, sz, hi⟩ := check_array_bounds_shape _ _ _ hsome
        subst hi
        exact noNull_append_one h1 (fun n => oob_ne_null _ n b iv sz p)
      · exact h1
    · refine ih.2 ?_
      have h1 := report_pointer_use_valid gl bn (Cursor.mk .ARRAY_SUBSCRIPT_EXPR d cs args sibs) false guards st hv
      unfold st2 st1
      split
      · rename_i issue hsome
        obtain ⟨b, iv, sz, hi⟩ := check_array_bounds_shape _ _ _ hsome
        subst hi
        exact valid_append_one h1 (valid_build_oob _ b iv sz)
      · exact h1
  case case8 =>
    intro guards st d cs args sibs st1 ih
    refine ⟨fun p hp h => ?_, fun hv => ?_⟩ <;> simp only [memTraverse]
    · exact ih.1 p hp (return_step_noNull gl _ guards st p hp h)
    · exact ih.2 (return_step_valid gl _ guards st hv)
  case case9 =>
    intro guards st d args sibs
    refine ⟨fun p hp h => ?_, fun hv => ?_⟩ <;> simp only [memTraverse] <;> assumption
  case case10 =>
    intro guards st d args sibs c ih
    refine ⟨fun p hp h => ?_, fun hv => ?_⟩ <;> simp only [memTraverse]
    · exact ih.1 p hp h
    · exact ih.2 hv
  case case11 =>
    intro guards st d args sibs cond st1 guarded tg thenB rest stt ih3 ih2 ih1
    refine ⟨fun p hp h => ?_, fun hv => ?_⟩ <;> simp only [memTraverse]
    · exact ih1.1 p hp (ih2.1 p (unionS_mem_left hp) (ih3.1 p hp h))
    · exact ih1.2 (ih2.2 (ih3.2 hv))
  case case12 =>
    intro guards st k d cs args sibs k1 k2 k3 k4 k5 k6 k7 k8 k9 ih
    refine ⟨fun p hp h => ?_, fun hv => ?_⟩ <;>
    · cases k
      all_goals first
        | exact (k1 rfl).elim
        | exact (k2 rfl).elim
        | exact (k3 rfl).elim
        | exact (k4 rfl).elim
        | exact (k5 rfl).elim
        | exact (k6 rfl).elim
        | exact (k7 rfl).elim
        | exact (k8 rfl).elim
        | exact (k9 rfl).elim
        | (simp only [memTraverse]
           first
             | exact ih.1 p hp h
             | exact ih.2 hv)
  case case13 =>
    intro guards st
    refine ⟨fun p hp h => ?_, fun hv => ?_⟩ <;> simp only [memTraverseList] <;> assumption
  case case14 =>
    intro guards st c rest ih2 ih1
    refine ⟨fun p hp h => ?_, fun hv => ?_⟩ <;> simp only [memTraverseList]
    · exact ih1.1 p hp (ih2.1 p hp h)
    · exact ih1.2 (ih2.2 hv)

/-! ### Sortedness of the runner's output (claim C2 machinery) -/

theorem mem_insertSorted {α : Type} {le : α → α → Bool} {x a : α} {l : List α} :
    a ∈ insertSorted le x l ↔ a = x ∨ a ∈ l := by
  induction l with
  | nil => simp [insertSorted]
  | cons y ys ih =>
    simp only [insertSorted]
    split
    · simp only [List.mem_cons, ih]
      tauto
    · simp [List.mem_cons]

theorem pairwise_insertSorted {α : Type} {le : α → α → Bool}
    (htot : ∀ a b, le a b = true ∨ le b a = true)
    (htrans : ∀ a b c, le a b = true → le b c = true → le a c = true)
    {x : α} {l : List α} (h : l.Pairwise (fun a b => le a b = true)) :
    (insertSorted le x l).Pairwise (fun a b => le a b = true) := by
  induction l with
  | nil => simp [insertSorted]
  | cons y ys ih =>
    rcases List.pairwise_cons.1 h with ⟨hy, hys⟩
    simp only [insertSorted]
    split
    · rename_i hle
      refine List.pairwise_cons.2 ⟨?_, ih hys⟩
      intro b hb
      rcases mem_insertSorted.1 hb with rfl | hb
      · exact hle
      · exact hy b hb
    · rename_i hle
      have hxy : le x y = true := by
        rcases htot x y with h1 | h1
        · exact h1
        · exact absurd h1 hle
      refine List.pairwise_cons.2 ⟨?_, h⟩
      intro b hb
      rcases List.mem_cons.1 hb with rfl | hb
      · exact hxy
      · exact htrans x y b hxy (hy b hb)

theorem pairwise_stableSort {α : Type} {le : α → α → Bool}
    (htot : ∀ a b, le a b = true ∨ le b a = true)
    (htrans : ∀ a b c, le a b = true → le b c = true → le a c = true)
    (l : List α) :
    (stableSort le l).Pairwise (fun a b => le a b = true) := by
  unfold stableSort
  suffices h : ∀ acc : List α, acc.Pairwise (fun a b => le a b = true) →
      (l.foldl (fun acc x => insertSorted le x acc) acc).Pairwise (fun a b => le a b = true) by
    exact h [] (by simp)
  induction l with
  | nil => intro acc hacc; exact hacc
  | cons x xs ih =>
    intro acc hacc
    exact ih _ (pairwise_insertSorted htot htrans hacc)

theorem mem_stableSort {α : Type} {le : α → α → Bool} {a : α} (l : List α) :
    a ∈ stableSort le l ↔ a ∈ l := by
  unfold stableSort
  suffices h : ∀ acc : List α,
      (a ∈ l.foldl (fun acc x => insertSorted le x acc) acc ↔ a ∈ acc ∨ a ∈ l) by
    simpa using h []
  induction l with
  | nil => intro acc; simp
  | cons x xs ih =>
    intro acc
    simp only [List.foldl_cons, ih, mem_insertSorted, List.mem_cons]
    tauto

theorem keyLE_iff (s1 s2 : Nat) (f1 f2 : String) (l1 l2 c1 c2 : Nat) :
    keyLE (s1, f1, l1, c1) (s2, f2, l2, c2) = true ↔
      (s1 < s2 ∨ (s1 = s2 ∧ (f1 < f2 ∨ (f1 = f2 ∧ (l1 < l2 ∨ (l1 = l2 ∧ c1 ≤ c2)))))) := by
  simp only [keyLE, decide_eq_true_eq]
  split_ifs with h1 h2 h3 <;> simp_all <;> omega

theorem keyLE_total (a b : Nat × String × Nat × Nat) : keyLE a b = true ∨ keyLE b a = true := by
  obtain ⟨s1, f1, l1, c1⟩ := a
  obtain ⟨s2, f2, l2, c2⟩ := b
  rw [keyLE_iff, keyLE_iff]
  rcases lt_trichotomy s1 s2 with h | h | h
  · exact Or.inl (Or.inl h)
  · subst h
    rcases lt_trichotomy f1 f2 with h | h | h
    · exact Or.inl (Or.inr ⟨rfl, Or.inl h⟩)
    · subst h
      rcases lt_trichotomy l1 l2 with h | h | h
      · exact Or.inl (Or.inr ⟨rfl, Or.inr ⟨rfl, Or.inl h⟩⟩)
      · subst h
        rcases Nat.le_total c1 c2 with h | h
        · exact Or.inl (Or.inr ⟨rfl, Or.inr ⟨rfl, Or.inr ⟨rfl, h⟩⟩⟩)
        · exact Or.inr (Or.inr ⟨rfl, Or.inr ⟨rfl, Or.inr ⟨rfl, h⟩⟩⟩)
      · exact Or.inr (Or.inr ⟨rfl, Or.inr ⟨rfl, Or.inl h⟩⟩)
    · exact Or.inr (Or.inr ⟨rfl, Or.inl h⟩)
  · exact Or.inr (Or.inl h)

theorem keyLE_trans (a b c : Nat × String × Nat × Nat)
    (h1 : keyLE a b = true) (h2 : keyLE b c = true) : keyLE a c = true := by
  obtain ⟨s1, f1, l1, c1⟩ := a
  obtain ⟨s2, f2, l2, c2⟩ := b
  obtain ⟨s3, f3, l3, c3⟩ := c
  rw [keyLE_iff] at h1 h2 ⊢
  rcases h1 with h1 | ⟨rfl, h1⟩
  · rcases h2 with h2 | ⟨rfl, h2⟩
    · exact Or.inl (lt_trans h1 h2)
    · exact Or.inl h1
  · rcases h2 with h2 | ⟨rfl, h2⟩
    · exact Or.inl h2
    · refine Or.inr ⟨rfl, ?_⟩
      rcases h1 with h1 | ⟨rfl, h1⟩
      · rcases h2 with h2 | ⟨rfl, h2⟩
        · exact Or.inl (lt_trans h1 h2)
        · exact Or.inl h1
      · rcases h2 with h2 | ⟨rfl, h2⟩
        · exact Or.inl h2
        · refine Or.inr ⟨rfl, ?_⟩
          rcases h1 with h1 | ⟨rfl, h1⟩
          · rcases h2 with h2 | ⟨rfl, h2⟩
            · exact Or.inl (lt_trans h1 h2)
            · exact Or.inl h1
          · rcases h2 with h2 | ⟨rfl, h2⟩
            · exact Or.inl h2
            · exact Or.inr ⟨rfl, le_trans h1 h2⟩

theorem issueLE_total (a b : Issue) : issueLE a b = true ∨ issueLE b a = true :=
  keyLE_total _ _

theorem issueLE_trans (a b c : Issue) (h1 : issueLE a b = true) (h2 : issueLE b c = true) :
    issueLE a c = true :=
  keyLE_trans _ _ _ h1 h2

/-! ### Concrete cursor trees for the witness programs

The trees below are the clang ASTs (as exposed through the capability
interface of utils.py) for small witness sources in file `t.c`. -/

def baseData : CursorData :=
  { spelling := "", displayname := "", typ := { kind := .OTHER, arraySize := none },
    loc := { file := some "t.c", line := 1, column := some 1 }, tokens := [],
    referenced := none, hasExternStorage := false, semParentKind := none }

def locAt (ln cl : Nat) : SrcLoc := { file := some "t.c", line := ln, column := some cl }

def ptrType : CType := { kind := .POINTER, arraySize := none }

/-- `int *g;` at file scope, then `void f(){ *g = 1; *g = 2; }`
(claim C4's witness program). -/
def declRefG (ln cl : Nat) : Cursor :=
  .mk .DECL_REF_EXPR
    { baseData with
        spelling := "g",
        typ := ptrType,
        loc := locAt ln cl,
        tokens := ["g"],
        referenced := some { spelling := "g", kind := .VAR_DECL } } [] [] []

def derefUnaryG (ln : Nat) : Cursor :=
  .mk .UNARY_OPERATOR
    { baseData with
        loc := locAt ln 3,
        tokens := ["*", "g"] } [declRefG ln 4] [] []

def derefAssignG (ln : Nat) (rhsTok : String) : Cursor :=
  .mk .BINARY_OPERATOR
    { baseData with
        loc := locAt ln 3,
        tokens := ["*", "g", "=", rhsTok] }
    [ derefUnaryG ln,
      .mk .INTEGER_LITERAL
        { baseData with
            loc := locAt ln 8,
            tokens := [rhsTok] } [] [] [] ] [] []

def gDecl : Cursor :=
  .mk .VAR_DECL
    { baseData with
        spelling := "g",
        typ := ptrType,
        loc := locAt 1 1,
        tokens := ["int", "*", "g"] } [] [] []

def fBody : Cursor :=
  .mk .COMPOUND_STMT
    { baseData with
        loc := locAt 2 10 } [derefAssignG 2 "1", derefAssignG 3 "2"] [] []

def fFn : Cursor :=
  .mk .FUNCTION_DECL
    { baseData with
        spelling := "f",
        displayname := "f()",
        loc := locAt 2 1,
        tokens := ["void", "f", "(", ")", "\x7b", "*", "g", "=", "1", ";", "*", "g", "=", "2", ";", "\x7d"] }
    [fBody] [] []

def tuC4 : TranslationUnit :=
  { cursor := .mk .TRANSLATION_UNIT
      { baseData with
          loc := { file := none, line := 0, column := none } } [gDecl, fFn] [] [],
    includes := [] }

def ctxC4 : AnalysisContext :=
  { source := "t.c", translation_unit := tuC4, compile_args := ["-std=c11"] }

/-- `int main(){ int *p = NULL; if (p != NULL) { *p = 1; } return 0; }`
(claim C1's witness program, spec §8 scenario 10). -/
def declRefP (ln cl : Nat) : Cursor :=
  .mk .DECL_REF_EXPR
    { baseData with
        spelling := "p",
        typ := ptrType,
        loc := locAt ln cl,
        tokens := ["p"],
        referenced := some { spelling := "p", kind := .VAR_DECL } } [] [] []

def nullExpr (ln cl : Nat) : Cursor :=
  .mk .UNEXPOSED_EXPR
    { baseData with
        loc := locAt ln cl,
        tokens := ["NULL"] } [] [] []

def varDeclP : Cursor :=
  .mk .VAR_DECL
    { baseData with
        spelling := "p",
        typ := ptrType,
        loc := locAt 1 18,
        tokens := ["int", "*", "p", "=", "NULL"],
        semParentKind := some .FUNCTION_DECL } [nullExpr 1 22] [] []

def declStmtP : Cursor :=
  .mk .DECL_STMT
    { baseData with
        loc := locAt 1 13,
        tokens := ["int", "*", "p", "=", "NULL", ";"] } [varDeclP] [] []

def condNeq : Cursor :=
  .mk .BINARY_OPERATOR
    { baseData with
        loc := locAt 1 31,
        tokens := ["p", "!=", "NULL"] } [declRefP 1 31, nullExpr 1 36] [] []

def derefAssignP : Cursor :=
  .mk .BINARY_OPERATOR
    { baseData with
        loc := locAt 1 45,
        tokens := ["*", "p", "=", "1"] }
    [ .mk .UNARY_OPERATOR
        { baseData with
            loc := locAt 1 45,
            tokens := ["*", "p"] } [declRefP 1 46] [] [],
      .mk .INTEGER_LITERAL
        { baseData with
            loc := locAt 1 50,
            tokens := ["1"] } [] [] [] ] [] []

def thenBlock : Cursor :=
  .mk .COMPOUND_STMT
    { baseData with
        loc := locAt 1 43 } [derefAssignP] [] []

def ifStmtP : Cursor :=
  .mk .IF_STMT
    { baseData with
        loc := locAt 1 27,
        tokens := ["if", "(", "p", "!=", "NULL", ")", "\x7b", "*", "p", "=", "1", ";", "\x7d"] }
    [condNeq, thenBlock] [] []

def retZero (ln cl : Nat) : Cursor :=
  .mk .RETURN_STMT
    { baseData with
        loc := locAt ln cl,
        tokens := ["return", "0"] }
    [ .mk .INTEGER_LITERAL
        { baseData with
            loc := locAt ln (cl + 7),
            tokens := ["0"] } [] [] [] ] [] []

def mainBodyC1 : Cursor :=
  .mk .COMPOUND_STMT
    { baseData with
        loc := locAt 1 11 } [declStmtP, ifStmtP, retZero 1 55] [] []

def mainFnC1 : Cursor :=
  .mk .FUNCTION_DECL
    { baseData with
        spelling := "main",
        displayname := "main()",
        loc := locAt 1 1,
        tokens := ["int", "main", "(", ")", "\x7b", "int", "*", "p", "=", "NULL", ";", "if", "(",
                   "p", "!=", "NULL", ")", "\x7b", "*", "p", "=", "1", ";", "\x7d", "return", "0", ";", "\x7d"] }
    [mainBodyC1] [] []

def tuC1 : TranslationUnit :=
  { cursor := .mk .TRANSLATION_UNIT
      { baseData with
          loc := { file := none, line := 0, column := none } } [mainFnC1] [] [],
    includes := [] }

/-- A frontend that parses `t.c` to the C1 witness tree. -/
def feC1 : List String → String → Except String TranslationUnit := fun _ _ => .ok tuC1

/-! ### Claim C1 machinery: the recognized non-null guard shapes -/

/-- The non-null condition shapes named by claim C1 (spec §4.D.6): a bare
reference to the pointer, `p != NULL/0/nullptr` in either operand order
(the reversed order as it arises in practice, with a literal left operand
that resolves to no declaration name), and conjunctions containing such a
shape.  The token side conditions pin down the shapes the way the checker
recognizes them. -/
inductive GuardShape (p : String) : Cursor → Prop where
  | bare (d : CursorData) (cs args sibs : List Cursor) :
      d.spelling = p →
      GuardShape p (.mk .DECL_REF_EXPR d cs args sibs)
  | neq_left (d : CursorData) (lhs rhs : Cursor) (rest args sibs : List Cursor) :
      d.tokens.contains "&&" = false → d.tokens.contains "||" = false →
      d.tokens.contains "!" = false → d.tokens.contains "!=" = true →
      pyOr (resolve_decl_name lhs) (first_decl_ref_name lhs) = some p →
      tokensHaveNull rhs = true →
      GuardShape p (.mk .BINARY_OPERATOR d (lhs :: rhs :: rest) args sibs)
  | neq_right (d : CursorData) (lhs rhs : Cursor) (rest args sibs : List Cursor) :
      d.tokens.contains "&&" = false → d.tokens.contains "||" = false →
      d.tokens.contains "!" = false → d.tokens.contains "!=" = true →
      pyOr (resolve_decl_name lhs) (first_decl_ref_name lhs) = none →
      pyOr (resolve_decl_name rhs) (first_decl_ref_name rhs) = some p →
      tokensHaveNull lhs = true →
      GuardShape p (.mk .BINARY_OPERATOR d (lhs :: rhs :: rest) args sibs)
  | conj_left (d : CursorData) (lhs rhs : Cursor) (rest args sibs : List Cursor) :
      d.tokens.contains "&&" = true →
      GuardShape p lhs →
      GuardShape p (.mk .BINARY_OPERATOR d (lhs :: rhs :: rest) args sibs)
  | conj_right (d : CursorData) (lhs rhs : Cursor) (rest args sibs : List Cursor) :
      d.tokens.contains "&&" = true →
      GuardShape p rhs →
      GuardShape p (.mk .BINARY_OPERATOR d (lhs :: rhs :: rest) args sibs)

theorem guard_shape_extract {p : String} {cond : Cursor} {pv : List String}
    (hs : GuardShape p cond) (hpv : p ∈ pv) :
    p ∈ extract_guarded_pointers cond pv := by
  induction hs with
  | bare d cs args sibs hsp =>
    subst hsp
    rw [extract_guarded_pointers.eq_def]
    simp [hpv]
  | neq_left d lhs rhs rest args sibs hand hor hnot hneq hres hnull =>
    have hand2 : "&&" ∉ d.tokens := by simpa using hand
    have hor2 : "||" ∉ d.tokens := by simpa using hor
    have hneq2 : "!=" ∈ d.tokens := by simpa using hneq
    simp [extract_guarded_pointers, hand2, hor2, hneq2, hnot, neqGuard, hres, hnull, hpv]
  | neq_right d lhs rhs rest args sibs hand hor hnot hneq hresl hresr hnull =>
    have hand2 : "&&" ∉ d.tokens := by simpa using hand
    have hor2 : "||" ∉ d.tokens := by simpa using hor
    have hneq2 : "!=" ∈ d.tokens := by simpa using hneq
    simp [extract_guarded_pointers, hand2, hor2, hneq2, hnot, neqGuard, neqGuardRight,
      hresl, hresr, hnull, hpv]
  | conj_left d lhs rhs rest args sibs hand hsub ih =>
    have key : extract_guarded_pointers (.mk .BINARY_OPERATOR d (lhs :: rhs :: rest) args sibs) pv
        = unionS (extract_guarded_pointers lhs pv) (extract_guarded_pointers rhs pv) := by
      have h2 : (lhs :: rhs :: rest).length ≥ 2 := by
        simp only [List.length_cons]
        omega
      have hand2 : "&&" ∈ d.tokens := by simpa using hand
      simp [extract_guarded_pointers, hand2, h2]
    rw [key]
    exact unionS_mem_left ih
  | conj_right d lhs rhs rest args sibs hand hsub ih =>
    have key : extract_guarded_pointers (.mk .BINARY_OPERATOR d (lhs :: rhs :: rest) args sibs) pv
        = unionS (extract_guarded_pointers lhs pv) (extract_guarded_pointers rhs pv) := by
      have h2 : (lhs :: rhs :: rest).length ≥ 2 := by
        simp only [List.length_cons]
        omega
      have hand2 : "&&" ∈ d.tokens := by simpa using hand
      simp [extract_guarded_pointers, hand2, h2]
    rw [key]
    exact unionS_mem_right ih

/-! ### Claim theorems -/

/-- C3: for every source whose parse by the frontend raises an exception,
`AnalyzerRunner.analyze` returns a report containing exactly one finding;
that finding has category `infrastructure`, severity `error` and
`line = 0`; and no checker is run (the memory checker's instance state is
returned untouched). -/
theorem claim_C3_parse_failure_single_infra_finding
    (frontend : List String → String → Except String TranslationUnit)
    (cfg : AnalyzerConfig) (gl : MemoryChecker) (source msg : String)
    (h : frontend cfg.compile_args source = .error msg) :
    (analyze frontend cfg gl source).1.issues = [infra_issue source msg] ∧
    (infra_issue source msg).category = "infrastructure" ∧
    (infra_issue source msg).severity = "error" ∧
    (infra_issue source msg).line = 0 ∧
    (analyze frontend cfg gl source).2 = gl := by
  unfold analyze
  rw [h]
  exact ⟨rfl, rfl, rfl, rfl, rfl⟩

/-- Witness for C3 at the concrete always-raising frontend. -/
theorem claim_C3_parse_failure_single_infra_finding_witness :
    (analyze (fun _ _ => Except.error "boom") DEFAULT_CONFIG emptyMemoryChecker "t.c").1.issues
      = [infra_issue "t.c" "boom"] :=
  (claim_C3_parse_failure_single_infra_finding (fun _ _ => Except.error "boom")
    DEFAULT_CONFIG emptyMemoryChecker "t.c" "boom" rfl).1

/-- C9: analyzing the same source twice with the same configuration,
threading the memory checker's instance state from the first run into the
second, yields reports with identical serializations; the underlying
reason is that `memoryRun` clears the summary sets at the start of each
run, so its result never depends on the incoming instance state. -/
theorem claim_C9_rerun_byte_identical
    (frontend : List String → String → Except String TranslationUnit)
    (cfg : AnalyzerConfig) (gl : MemoryChecker) (source : String) :
    ((analyze frontend cfg (analyze frontend cfg gl source).2 source).1).to_dict
      = ((analyze frontend cfg gl source).1).to_dict ∧
    (∀ (gl1 gl2 : MemoryChecker) (context : AnalysisContext),
       memoryRun gl1 context = memoryRun gl2 context) := by
  refine ⟨?_, fun _ _ _ => rfl⟩
  have hrep : ∀ gl' : MemoryChecker,
      (analyze frontend cfg gl' source).1 = (analyze frontend cfg gl source).1 := by
    intro gl'
    unfold analyze
    cases frontend cfg.compile_args source <;> rfl
  rw [hrep]

/-- C2: every report produced by the Runner lists its findings in
nondecreasing order of the sort key
`(severityRank, file, line, column-or-0)` computed by `issue_sort_key`
and compared lexicographically by `keyLE`. -/
theorem claim_C2_report_sorted
    (frontend : List String → String → Except String TranslationUnit)
    (cfg : AnalyzerConfig) (gl : MemoryChecker) (source : String) :
    ((analyze frontend cfg gl source).1.issues).Pairwise
      (fun a b => keyLE (issue_sort_key a) (issue_sort_key b) = true) := by
  unfold analyze
  cases frontend cfg.compile_args source
  · simp
  · exact pairwise_stableSort issueLE_total issueLE_trans _

/-- C10: an in-file call to `printf` or `scanf` with zero arguments
produces no arity-mismatch finding and no scanf-address finding: the
format-string logic is skipped entirely, and only the missing-include
check can still fire for the call. -/
theorem claim_C10_zero_arg_call_skips_format_logic
    (includes : List String) (node : Cursor) (callee : String)
    (hk : node.kind = .CALL_EXPR)
    (hc : stdlib_resolve_callee node = some callee)
    (hcal : callee = "printf" ∨ callee = "scanf")
    (hargs : node.arguments = []) :
    stdlib_node_issues includes node =
      (match REQUIRED_HEADERS callee with
       | some header =>
           if header ∉ includes then [build_include_issue node callee header] else []
       | none => []) := by
  have hne : callee ≠ "" := by
    rcases hcal with h | h <;> subst h <;> decide
  simp only [stdlib_node_issues, hk, hc, hargs, ne_eq, not_true_eq_false, if_false,
    if_neg hne, if_pos hcal, List.append_nil]

/-- A zero-argument `printf()` call node. -/
def zeroArgPrintf : Cursor :=
  .mk .CALL_EXPR
    { baseData with spelling := "printf", loc := locAt 1 3,
                    referenced := some { spelling := "printf", kind := .FUNCTION_DECL } }
    [] [] []

/-- Witness for C10: with no include recorded, the zero-argument
`printf()` call yields exactly the missing-include finding. -/
theorem claim_C10_zero_arg_call_skips_format_logic_witness :
    stdlib_node_issues [] zeroArgPrintf = [build_include_issue zeroArgPrintf "printf" "stdio.h"] := by
  rw [claim_C10_zero_arg_call_skips_format_logic [] zeroArgPrintf "printf" rfl rfl
    (Or.inl rfl) rfl]
  rfl

/-! ### Claim C5 -/

/-- `a / b / 0`: the second `/` is immediately followed by `0`, but only
the first `/` is inspected by `_check_division`. -/
def divNodeC5 : Cursor :=
  .mk .BINARY_OPERATOR
    { baseData with loc := locAt 2 10, tokens := ["a", "/", "b", "/", "0"] } [] [] []

def tuC5 : TranslationUnit :=
  { cursor := .mk .TRANSLATION_UNIT
      { baseData with loc := { file := none, line := 0, column := none } } [divNodeC5] [] [],
    includes := [] }

def ctxC5 : AnalysisContext :=
  { source := "t.c", translation_unit := tuC5, compile_args := [] }

/-- C5 counterexample: an in-file binary operator whose token stream
contains `/` immediately followed by `0` (at positions 3 and 4), yet the
numeric checker emits no finding at all, because only the token after the
first `/` is inspected. -/
theorem claim_C5_counterexample :
    divNodeC5.kind = .BINARY_OPERATOR ∧
    divNodeC5.tokens.getD 3 "" = "/" ∧ divNodeC5.tokens.getD 4 "" = "0" ∧
    numericRun ctxC5 = [] := by
  refine ⟨rfl, rfl, rfl, ?_⟩
  simp [numericRun, stack_walk, check_division, ctxC5, tuC5, divNodeC5, baseData, locAt,
    Cursor.loc, Cursor.kind, Cursor.children, Cursor.data, Cursor.tokens]

theorem indexOf_append_cons_self (pre l : List String) (h : "/" ∉ pre) :
    List.indexOf "/" (pre ++ "/" :: l) = pre.length := by
  induction pre with
  | nil => simp [List.indexOf_cons]
  | cons x xs ih =>
    have hx : x ≠ "/" := by
      intro he
      exact h (by simp [he])
    have hxs : "/" ∉ xs := fun hm => h (by simp [hm])
    simp [List.indexOf_cons, hx, Ne.symm hx, ih hxs]

theorem getD_append_len_succ (pre : List String) (x y : String) (l : List String) :
    (pre ++ x :: y :: l).getD (pre.length + 1) "" = y := by
  induction pre with
  | nil => simp
  | cons a t ih => simpa using ih

/-- C5 amended: `_check_division` inspects only the first `/` of the
token stream; when the token right after the first `/` is `0`, exactly
one division-by-zero finding is emitted for the node, with severity
`error` and category `numeric`. -/
theorem claim_C5_first_slash_division (c : Cursor) (pre rest : List String)
    (htok : c.tokens = pre ++ "/" :: "0" :: rest)
    (hpre : "/" ∉ pre) :
    check_division c = [build_div_issue c] ∧
    (build_div_issue c).severity = "error" ∧
    (build_div_issue c).category = "numeric" := by
  refine ⟨?_, rfl, rfl⟩
  unfold check_division
  rw [htok]
  have hcon : (pre ++ "/" :: "0" :: rest).contains "/" = true := by simp
  have hidx : List.indexOf "/" (pre ++ "/" :: "0" :: rest) = pre.length :=
    indexOf_append_cons_self pre _ hpre
  have hlen : pre.length + 1 < (pre ++ "/" :: "0" :: rest).length := by
    simp [List.length_append]
  have hget : (pre ++ "/" :: "0" :: rest).getD (pre.length + 1) "" = "0" :=
    getD_append_len_succ pre _ _ _
  simp only [hcon, hidx, hlen, hget, not_true_eq_false, if_false, and_self, if_pos]

/-- `x / 0`. -/
def divNodeW5 : Cursor :=
  .mk .BINARY_OPERATOR
    { baseData with loc := locAt 2 10, tokens := ["x", "/", "0"] } [] [] []

/-- Witness for C5's amended theorem on `x / 0`. -/
theorem claim_C5_first_slash_division_witness :
    check_division divNodeW5 = [build_div_issue divNodeW5] :=
  (claim_C5_first_slash_division divNodeW5 ["x"] [] rfl (by decide)).1

/-! ### Claim C4 -/

/-- C4 counterexample: the file-scope uninitialized pointer `g` is used
at two distinct locations inside the single function `f`, and the memory
checker reports an uninitialized-pointer-use finding at each of them —
two findings for one identifier in one function — because a file-scope
name is never removed from `global_uninitialized` and the deduplication
key includes the location. -/
theorem claim_C4_counterexample :
    (memoryRun emptyMemoryChecker ctxC4).1 =
      [build_global_uninit_issue gDecl,
       build_uninitialized_pointer_issue (derefUnaryG 2) "g",
       build_uninitialized_pointer_issue (derefUnaryG 3) "g"] := by
  simp [memoryRun, ctxC4, tuC4, gDecl, fFn, fBody, derefAssignG, derefUnaryG, declRefG,
    baseData, locAt, ptrType,
    check_pointer_initialization, collect_global_array, check_function, pre_scan_child,
    memTraverse, memTraverseList, var_decl_step, assign_step, call_step, return_step,
    report_pointer_use, first_decl_ref_name, first_decl_ref_name_list, resolve_decl_name,
    resolve_assignment_target, resolve_assignment_rhs, resolve_callee, pyOr, addK,
    cursor_location, emptyMemoryChecker, mark_initialized, collect_decl_ref_names,
    collect_decl_ref_names_list, extract_guarded_pointers, extract_guarded_pointers_list,
    check_array_bounds, Cursor.kind, Cursor.children, Cursor.spelling, Cursor.data,
    Cursor.loc, Cursor.tokens, Cursor.typ, Cursor.referenced, Cursor.arguments,
    extract_array_size]

/-- C4 amended: when `x` is in the uninitialized state (locally or in the
translation-unit `global_uninitialized` summary), is not freed and not
null-valued, and its `(name, line, column-or-0)` key has not been
reported yet, `report_pointer_use` emits one error/memory
uninitialized-pointer-use finding, records that per-location key, and
removes `x` from the *local* uninitialized set only; the file-scope
summary lives on the read-only checker argument and is never shrunk, so
the same file-scope identifier is reported once per distinct source
location rather than once per function. -/
theorem claim_C4_uninitialized_use_reported_per_location
    (gl : MemoryChecker) (name : String) (node : Cursor) (guards : List String) (st : MemState)
    (hn : name ≠ "")
    (hfree : name ∉ st.freed_pointers)
    (hnull : name ∉ st.pointer_null)
    (hun : name ∈ st.local_uninitialized ∨ name ∈ gl.global_uninitialized)
    (hkey : (name, node.loc.line, node.loc.column.getD 0) ∉ st.reported_uninitialized) :
    (report_pointer_use gl (some name) node false guards st).issues
      = st.issues ++ [build_uninitialized_pointer_issue node name] ∧
    (report_pointer_use gl (some name) node false guards st).local_uninitialized
      = st.local_uninitialized.erase name ∧
    (report_pointer_use gl (some name) node false guards st).reported_uninitialized
      = addK st.reported_uninitialized (name, node.loc.line, node.loc.column.getD 0) ∧
    (build_uninitialized_pointer_issue node name).severity = "error" ∧
    (build_uninitialized_pointer_issue node name).category = "memory" := by
  refine ⟨?_, ?_, ?_, rfl, rfl⟩ <;>
    simp [report_pointer_use, hn, hfree, hnull, hun, hkey]

/-- A per-function state in which `q` is a known uninitialized local
pointer. -/
def st4w : MemState :=
  { issues := [], pointer_null := [], local_uninitialized := ["q"], pointer_vars := ["q"],
    freed_pointers := [], reported_uninitialized := [], reported_null := [],
    reported_uaf := [], reported_double_free := [], array_sizes := [],
    allocation_calls := 0, free_calls := 0, returns_uninitialized_pointer := false }

/-- Witness for C4's amended theorem. -/
theorem claim_C4_uninitialized_use_reported_per_location_witness :
    (report_pointer_use emptyMemoryChecker (some "q") (derefUnaryG 2) false [] st4w).issues
      = [build_uninitialized_pointer_issue (derefUnaryG 2) "q"] := by
  have h := claim_C4_uninitialized_use_reported_per_location emptyMemoryChecker "q"
    (derefUnaryG 2) [] st4w (by decide) (by simp [st4w]) (by simp [st4w])
    (Or.inl (by simp [st4w])) (by simp [st4w])
  simpa [st4w] using h.1

/-! ### Claim C6 -/

def fmtArg6 : Cursor :=
  .mk .STRING_LITERAL { baseData with loc := locAt 3 10, tokens := ["\"%d\""] } [] [] []

def argA6 : Cursor :=
  .mk .DECL_REF_EXPR { baseData with spelling := "a", loc := locAt 3 16, tokens := ["a"] } [] [] []

def argB6 : Cursor :=
  .mk .DECL_REF_EXPR { baseData with spelling := "b", loc := locAt 3 19, tokens := ["b"] } [] [] []

/-- `scanf("%d", a, b)` — one specifier, two value arguments, neither of
which is a pointer or an address-of expression. -/
def scanfMismatch6 : Cursor :=
  .mk .CALL_EXPR
    { baseData with spelling := "scanf", loc := locAt 3 3,
                    referenced := some { spelling := "scanf", kind := .FUNCTION_DECL } }
    [] [fmtArg6, argA6, argB6] []

/-- C6 counterexample: in `scanf("%d", a, b)` both value arguments lack a
pointer type and a leading `&`, yet the only finding is the
arity-mismatch one — the address check is skipped entirely because the
value-argument count differs from the specifier count. -/
theorem claim_C6_counterexample :
    argA6.typ.kind ≠ .POINTER ∧ argA6.tokens.headD "" ≠ "&" ∧
    argB6.typ.kind ≠ .POINTER ∧ argB6.tokens.headD "" ≠ "&" ∧
    stdlib_node_issues ["stdio.h"] scanfMismatch6 =
      [build_arg_count_issue scanfMismatch6 "scanf" 1 2] := by
  refine ⟨by decide, by decide, by decide, by decide, ?_⟩
  simp [stdlib_node_issues, scanfMismatch6, fmtArg6, argA6, argB6, baseData, locAt,
    stdlib_resolve_callee, extract_string_literal, stripQuotes, REQUIRED_HEADERS,
    parse_format_string, parse_format_chars, PRINTF_SPECIFIERS,
    Cursor.kind, Cursor.data, Cursor.arguments, Cursor.tokens, Cursor.typ,
    Cursor.referenced, Cursor.spelling, Cursor.displayname]

/-- The per-argument test of `_check_scanf_arguments`: a value argument
offends when its type is not a pointer and its first token is not `&`. -/
def scanf_offender (a : Cursor) : Bool :=
  ¬ (a.typ.kind = .POINTER) ∧ ¬ (¬ a.tokens.isEmpty ∧ a.tokens.headD "" = "&")

theorem check_scanf_arguments_filter_map (args : List Cursor) :
    check_scanf_arguments args = (args.filter scanf_offender).map build_scanf_addr_issue := by
  unfold check_scanf_arguments
  suffices h : ∀ acc : List Issue,
      (args.foldl (fun issues arg =>
        let arg_tokens := arg.tokens
        let is_pointer := arg.typ.kind = .POINTER
        let has_address_of := ¬ arg_tokens.isEmpty ∧ arg_tokens.headD "" = "&"
        if ¬ is_pointer ∧ ¬ has_address_of then issues ++ [build_scanf_addr_issue arg]
        else issues) acc)
      = acc ++ (args.filter scanf_offender).map build_scanf_addr_issue by
    simpa using h []
  induction args with
  | nil => intro acc; simp
  | cons a t ih =>
    intro acc
    have hof : scanf_offender a = true ↔
        (¬ (a.typ.kind = .POINTER) ∧ ¬ (¬ a.tokens.isEmpty ∧ a.tokens.headD "" = "&")) := by
      simp only [scanf_offender, decide_eq_true_eq]
    simp only [List.foldl_cons, List.filter_cons]
    by_cases h : ¬ (a.typ.kind = .POINTER) ∧ ¬ (¬ a.tokens.isEmpty ∧ a.tokens.headD "" = "&")
    · rw [if_pos h, ih, if_pos (hof.mpr h)]
      simp
    · rw [if_neg h, ih, if_neg (fun hb => h (hof.mp hb))]

/-- C6 amended: for an in-file `scanf` call with a nonempty string-literal
format argument, the address check runs *only* when the value-argument
count matches the specifier count; on a match, one scanf-requires-address
finding is emitted per offending argument, and on a mismatch only the
single arity finding is emitted. -/
theorem claim_C6_scanf_address_check_requires_arity_match
    (includes : List String) (node fmt_argument : Cursor)
    (value_arguments : List Cursor) (fmt_literal : String)
    (hk : node.kind = .CALL_EXPR)
    (hc : stdlib_resolve_callee node = some "scanf")
    (hargs : node.arguments = fmt_argument :: value_arguments)
    (hlit : extract_string_literal fmt_argument = some fmt_literal)
    (hne : fmt_literal ≠ "") :
    stdlib_node_issues includes node =
      (match REQUIRED_HEADERS "scanf" with
       | some header =>
           if header ∉ includes then [build_include_issue node "scanf" header] else []
       | none => [])
      ++ (if value_arguments.length = (parse_format_string fmt_literal).length then
            (value_arguments.filter scanf_offender).map build_scanf_addr_issue
          else
            [build_arg_count_issue node "scanf" (parse_format_string fmt_literal).length
              value_arguments.length]) := by
  by_cases hm : value_arguments.length = (parse_format_string fmt_literal).length
  · simp [stdlib_node_issues, hk, hc, hargs, hlit, hne, hm, check_scanf_arguments_filter_map]
  · simp [stdlib_node_issues, hk, hc, hargs, hlit, hne, hm]

/-- `scanf("%d", a)` — counts match, `a` offends. -/
def scanfMatch6 : Cursor :=
  .mk .CALL_EXPR
    { baseData with spelling := "scanf", loc := locAt 3 3,
                    referenced := some { spelling := "scanf", kind := .FUNCTION_DECL } }
    [] [fmtArg6, argA6] []

/-- Witness for C6's amended theorem: with matching counts, the single
non-address argument yields exactly one scanf-requires-address finding. -/
theorem claim_C6_scanf_address_check_requires_arity_match_witness :
    stdlib_node_issues ["stdio.h"] scanfMatch6 = [build_scanf_addr_issue argA6] := by
  rw [claim_C6_scanf_address_check_requires_arity_match ["stdio.h"] scanfMatch6 fmtArg6
    [argA6] "%d" rfl rfl rfl (by simp [extract_string_literal, fmtArg6, stripQuotes,
      Cursor.tokens, Cursor.data, baseData]) (by decide)]
  simp [parse_format_string, parse_format_chars, PRINTF_SPECIFIERS, REQUIRED_HEADERS,
    scanf_offender, argA6, baseData, Cursor.typ, Cursor.tokens, Cursor.data, locAt]

/-! ### Claim C7: validity of every emitted finding -/

theorem foldl_preserve_gen {α β : Type} {P : α → Prop} (f : α → β → α)
    (hf : ∀ st b, P st → P (f st b)) :
    ∀ (l : List β) (st : α), P st → P (l.foldl f st) := by
  intro l
  induction l with
  | nil => intro st h; exact h
  | cons b t ih => intro st h; exact ih _ (hf st b h)

theorem valid_nil : ValidIssues [] := by
  intro i hi
  simp at hi

theorem valid_one {i : Issue} (h : ValidIssue i) : ValidIssues [i] := by
  intro j hj
  simp at hj
  simpa [hj] using h

theorem valid_build_var_uninit (c : Cursor) : ValidIssue (build_var_uninit_issue c) := by
  simp [ValidIssue, build_var_uninit_issue]

theorem valid_build_use_before_assign (c : Cursor) (name : String) :
    ValidIssue (build_use_before_assign_issue c name) := by
  simp [ValidIssue, build_use_before_assign_issue]

theorem valid_build_include (c : Cursor) (callee header : String) :
    ValidIssue (build_include_issue c callee header) := by
  simp [ValidIssue, build_include_issue]

theorem valid_build_arg_count (c : Cursor) (callee : String) (e a : Nat) :
    ValidIssue (build_arg_count_issue c callee e a) := by
  simp [ValidIssue, build_arg_count_issue]

theorem valid_build_scanf_addr (c : Cursor) : ValidIssue (build_scanf_addr_issue c) := by
  simp [ValidIssue, build_scanf_addr_issue]

theorem valid_build_div (c : Cursor) : ValidIssue (build_div_issue c) := by
  simp [ValidIssue, build_div_issue]

theorem valid_build_loop (c : Cursor) : ValidIssue (build_loop_issue c) := by
  simp [ValidIssue, build_loop_issue]

theorem valid_build_unreachable (c : Cursor) : ValidIssue (build_unreachable_issue c) := by
  simp [ValidIssue, build_unreachable_issue]

theorem valid_infra (source msg : String) : ValidIssue (infra_issue source msg) := by
  simp [ValidIssue, infra_issue]

theorem check_var_decl_valid (c : Cursor) : ValidIssues (check_var_decl c) := by
  unfold check_var_decl
  split
  · exact valid_nil
  split
  · exact valid_nil
  · exact valid_one (valid_build_var_uninit c)

theorem var_node_step_valid (st : VarState) (node : Cursor) (h : ValidIssues st.issues) :
    ValidIssues (var_node_step st node).issues := by
  unfold var_node_step
  dsimp only
  repeat' split
  all_goals
    first
      | exact h
      | exact valid_append h (valid_one (valid_build_use_before_assign _ _))

theorem check_function_vars_valid (cursor : Cursor) : ValidIssues (check_function_vars cursor) := by
  unfold check_function_vars
  exact foldl_preserve_gen var_node_step (fun st b hb => var_node_step_valid st b hb)
    (var_walk_list [cursor]) _ valid_nil

theorem variableRun_valid (context : AnalysisContext) : ValidIssues (variableRun context) := by
  unfold variableRun
  refine foldl_preserve_gen _ ?_ _ _ valid_nil
  intro issues cursor hv
  split
  · exact hv
  split
  · exact valid_append hv (check_var_decl_valid cursor)
  split
  · exact valid_append hv (check_function_vars_valid cursor)
  · exact hv

theorem check_scanf_arguments_valid (args : List Cursor) :
    ValidIssues (check_scanf_arguments args) := by
  rw [check_scanf_arguments_filter_map]
  intro i hi
  simp only [List.mem_map] at hi
  obtain ⟨a, _, rfl⟩ := hi
  exact valid_build_scanf_addr a

theorem stdlib_node_issues_valid (includes : List String) (node : Cursor) :
    ValidIssues (stdlib_node_issues includes node) := by
  unfold stdlib_node_issues
  dsimp only
  repeat' split
  all_goals
    first
      | exact valid_nil
      | refine valid_append ?_ ?_ <;>
          first
            | exact valid_nil
            | exact valid_one (valid_build_include _ _ _)
            | exact valid_one (valid_build_arg_count _ _ _ _)
            | exact check_scanf_arguments_valid _

theorem stdlibRun_valid (context : AnalysisContext) : ValidIssues (stdlibRun context) := by
  unfold stdlibRun
  refine foldl_preserve_gen _ ?_ _ _ valid_nil
  intro issues node hv
  exact valid_append hv (stdlib_node_issues_valid _ node)

theorem check_division_valid (c : Cursor) : ValidIssues (check_division c) := by
  unfold check_division
  dsimp only
  split
  · exact valid_nil
  split
  · exact valid_one (valid_build_div c)
  · exact valid_nil

theorem check_loop_valid (c : Cursor) : ValidIssues (check_loop c) := by
  unfold check_loop
  split
  · exact valid_nil
  split
  · exact valid_one (valid_build_loop c)
  · exact valid_nil

theorem unreachableScan_valid (l : List Cursor) : ValidIssues (unreachableScan l) := by
  induction l with
  | nil => exact valid_nil
  | cons c rest ih =>
    unfold unreachableScan
    split
    · split
      · exact valid_one (valid_build_unreachable _)
      · exact valid_nil
    · exact ih

theorem check_unreachable_valid (c : Cursor) : ValidIssues (check_unreachable c) :=
  unreachableScan_valid c.children

theorem numericRun_valid (context : AnalysisContext) : ValidIssues (numericRun context) := by
  unfold numericRun
  refine foldl_preserve_gen _ ?_ _ _ valid_nil
  intro issues node hv
  split
  · exact valid_append hv (check_division_valid node)
  split
  · exact valid_append hv (check_loop_valid node)
  split
  · exact valid_append hv (check_unreachable_valid node)
  · exact hv

theorem pre_scan_child_issues (st : MemState) (c : Cursor) :
    (pre_scan_child st c).issues = st.issues := by
  unfold pre_scan_child
  dsimp only
  repeat' split
  all_goals
    first
      | rfl
      | rw [mark_initialized_issues]

theorem check_pointer_initialization_valid (gl : MemoryChecker) (cursor : Cursor) :
    ValidIssues (check_pointer_initialization gl cursor).1 := by
  unfold check_pointer_initialization
  dsimp only
  repeat' split
  all_goals
    first
      | exact valid_nil
      | exact valid_one (valid_build_global_uninit _)

theorem check_function_valid (gl : MemoryChecker) (cursor : Cursor) :
    ValidIssues (check_function gl cursor).1 := by
  cases cursor with
  | mk k d cs args sibs =>
    unfold check_function
    dsimp only
    split
    · refine valid_append ?_ (valid_one (valid_build_leak _ _ _))
      refine ((memTraverse_invariants gl).2 cs [] _).2 ?_
      refine @foldl_preserve Cursor (fun st => ValidIssues st.issues) pre_scan_child
        (fun st b hb => by
          show ValidIssues (pre_scan_child st b).issues
          rw [pre_scan_child_issues]
          exact hb) cs _ ?_
      refine @foldl_preserve Cursor (fun st => ValidIssues st.issues) _
        (fun st b hb => by dsimp only; split <;> exact hb) args _ ?_
      exact valid_nil
    · refine ((memTraverse_invariants gl).2 cs [] _).2 ?_
      refine @foldl_preserve Cursor (fun st => ValidIssues st.issues) pre_scan_child
        (fun st b hb => by
          show ValidIssues (pre_scan_child st b).issues
          rw [pre_scan_child_issues]
          exact hb) cs _ ?_
      refine @foldl_preserve Cursor (fun st => ValidIssues st.issues) _
        (fun st b hb => by dsimp only; split <;> exact hb) args _ ?_
      exact valid_nil

theorem memoryRun_valid (gl : MemoryChecker) (context : AnalysisContext) :
    ValidIssues (memoryRun gl context).1 := by
  unfold memoryRun
  dsimp only
  refine @foldl_preserve_gen (List Issue × MemoryChecker) Cursor
    (fun acc => ValidIssues acc.1) _ ?_ _ _ valid_nil
  intro acc cursor hv
  dsimp only
  split
  · exact hv
  split
  · exact valid_append hv (check_pointer_initialization_valid _ _)
  split
  · exact valid_append hv (check_function_valid _ _)
  · exact hv

theorem valid_ite_append {c : Prop} [Decidable c] {l1 l2 : List Issue}
    (h1 : ValidIssues l1) (h2 : ValidIssues l2) :
    ValidIssues (if c then l1 else l1 ++ l2) := by
  split
  · exact h1
  · exact valid_append h1 h2

/-- An `Issue` value with severity and category outside the spec's closed
sets: nothing rejects its construction. -/
def bogusIssue : Issue :=
  { category := "bogus-category", severity := "fatal", message := "m",
    file := "t.c", line := 1, column := none, suggestion := none }

/-- C7 counterexample: the `Issue` dataclass performs no validation, so a
finding with severity `fatal` and category `bogus-category` — both
outside the closed sets — is constructible. -/
theorem claim_C7_counterexample :
    bogusIssue.severity ∉ (["error", "warning", "info"] : List String) ∧
    bogusIssue.category ∉
      (["memory", "variable", "stdlib", "numeric", "control-flow", "infrastructure"] :
        List String) := by
  decide

/-- C7 amended: although `Issue` construction is unvalidated, every
finding actually emitted through `AnalyzerRunner.analyze` — from any of
the four checkers or the parse-failure path — has a severity in
`{error, warning, info}` and a category in
`{memory, variable, stdlib, numeric, control-flow, infrastructure}`. -/
theorem claim_C7_emitted_findings_valid
    (frontend : List String → String → Except String TranslationUnit)
    (cfg : AnalyzerConfig) (gl : MemoryChecker) (source : String) (i : Issue)
    (hi : i ∈ (analyze frontend cfg gl source).1.issues) :
    i.severity ∈ (["error", "warning", "info"] : List String) ∧
    i.category ∈
      (["memory", "variable", "stdlib", "numeric", "control-flow", "infrastructure"] :
        List String) := by
  revert hi
  unfold analyze
  cases h : frontend cfg.compile_args source with
  | error e =>
    intro hi
    simp only [List.mem_singleton] at hi
    subst hi
    exact valid_infra source e
  | ok tu =>
    intro hi
    dsimp only at hi
    rw [mem_stableSort] at hi
    exact valid_ite_append (valid_ite_append (valid_ite_append
      (memoryRun_valid gl _) (variableRun_valid _)) (stdlibRun_valid _))
      (numericRun_valid _) i hi

/-- Witness for C7's amended theorem on the parse-failure finding. -/
theorem claim_C7_emitted_findings_valid_witness :
    (infra_issue "t.c" "boom").severity ∈ (["error", "warning", "info"] : List String) ∧
    (infra_issue "t.c" "boom").category ∈
      (["memory", "variable", "stdlib", "numeric", "control-flow", "infrastructure"] :
        List String) :=
  claim_C7_emitted_findings_valid (fun _ _ => Except.error "boom") DEFAULT_CONFIG
    emptyMemoryChecker "t.c" (infra_issue "t.c" "boom") (by simp [analyze])

/-! ### Claim C8 -/

/-- Whether a serialized object carries an entry under key `k`. -/
def jObjHasKey (j : J) (k : String) : Bool :=
  match j with
  | .obj kvs => kvs.any (fun kv => kv.1 == k)
  | _ => false

/-- `int *g;` alone at file scope, parsed successfully. -/
def tuC8 : TranslationUnit :=
  { cursor := .mk .TRANSLATION_UNIT
      { baseData with loc := { file := none, line := 0, column := none } } [gDecl] [] [],
    includes := [] }

def feC8 : List String → String → Except String TranslationUnit := fun _ _ => .ok tuC8

/-- A configuration with suggestions disabled. -/
def cfgC8 : AnalyzerConfig :=
  { compile_args := [], enable_suggestions := false, stop_on_error := false }

/-- C8 counterexample: with `enable_suggestions = false` the analysis of
`int *g;` still produces findings whose serializations carry a
`suggestion` entry — the flag is never consulted and nothing is
dropped. -/
theorem claim_C8_counterexample :
    cfgC8.enable_suggestions = false ∧
    (analyze feC8 cfgC8 emptyMemoryChecker "t.c").1.issues
      = [build_global_uninit_issue gDecl, build_var_uninit_issue gDecl] ∧
    jObjHasKey (Issue.to_dict (build_global_uninit_issue gDecl)) "suggestion" = true ∧
    jObjHasKey (Issue.to_dict (build_var_uninit_issue gDecl)) "suggestion" = true := by
  refine ⟨rfl, ?_, by decide, by decide⟩
  simp [analyze, feC8, tuC8, cfgC8, gDecl, baseData, locAt, ptrType,
    memoryRun, check_pointer_initialization, collect_global_array, emptyMemoryChecker,
    variableRun, check_var_decl, stdlibRun, numericRun, stack_walk, stdlib_node_issues,
    stdlib_resolve_callee, check_division, check_loop, check_unreachable,
    stopNow, stableSort, insertSorted, issueLE, issue_sort_key, keyLE, severityRank,
    build_global_uninit_issue, build_var_uninit_issue, cursor_location,
    Cursor.kind, Cursor.children, Cursor.spelling, Cursor.data, Cursor.loc,
    Cursor.tokens, Cursor.typ, Cursor.referenced, Cursor.arguments, Cursor.displayname]

/-- C8 amended: `enable_suggestions` has no effect anywhere — `analyze`
returns the same result for any value of the flag — and serialization
keeps the `suggestion` entry whenever a finding carries a suggestion. -/
theorem claim_C8_enable_suggestions_never_consulted
    (frontend : List String → String → Except String TranslationUnit)
    (cfg : AnalyzerConfig) (gl : MemoryChecker) (source : String) (b : Bool) :
    analyze frontend { cfg with enable_suggestions := b } gl source
      = analyze frontend cfg gl source ∧
    (∀ (i : Issue) (sg : Suggestion), i.suggestion = some sg →
      jObjHasKey (Issue.to_dict i) "suggestion" = true) := by
  constructor
  · rfl
  · intro i sg h
    simp [Issue.to_dict, jObjHasKey, h]

/-- Witness for C8's amended theorem on the global-uninitialized-pointer
warning, which carries a suggestion. -/
theorem claim_C8_enable_suggestions_never_consulted_witness :
    jObjHasKey (Issue.to_dict (build_global_uninit_issue gDecl)) "suggestion" = true :=
  (claim_C8_enable_suggestions_never_consulted feC8 DEFAULT_CONFIG emptyMemoryChecker
    "t.c" false).2 (build_global_uninit_issue gDecl)
    { title := "在声明时初始化指针或在首次使用前赋值",
      detail := some "例如: `int *ptr = NULL;` 并确保使用前检查是否为空。" } rfl

/-- A per-function state after walking `int *p = NULL;`: `p` is a known
null-valued pointer variable with no findings yet. -/
def st1w : MemState :=
  { issues := [], pointer_null := ["p"], local_uninitialized := [], pointer_vars := ["p"],
    freed_pointers := [], reported_uninitialized := [], reported_null := [],
    reported_uaf := [], reported_double_free := [], array_sizes := [],
    allocation_calls := 0, free_calls := 0, returns_uninitialized_pointer := false }

/-- C1: (i) an if-statement's then-branch is walked with the guard set
extended by the pointers extracted from the condition while the remaining
children are walked with the original guards; (ii) when the condition has
a recognized non-null shape for `p` (bare reference, `p != NULL`-style
test in either operand order, or a conjunction of such shapes) and `p` is
a known pointer variable, the then-branch walk emits no null-dereference
finding for `p`; (iii) the spec's example
`int main(){ int *p = NULL; if (p != NULL) { *p = 1; } return 0; }`
yields a report with no findings at all. -/
theorem claim_C1_guarded_then_branch (gl : MemoryChecker) :
    (∀ (d : CursorData) (condition thenBranch : Cursor) (rest2 args sibs : List Cursor)
       (guards : List String) (st : MemState),
       memTraverse gl (.mk .IF_STMT d (condition :: thenBranch :: rest2) args sibs) guards st
         = memTraverseList gl rest2 guards
             (memTraverse gl thenBranch
               (unionS guards
                 (extract_guarded_pointers condition
                   (memTraverse gl condition guards st).pointer_vars))
               (memTraverse gl condition guards st))) ∧
    (∀ (p : String) (condition thenBranch : Cursor) (guards : List String) (st1 : MemState),
       GuardShape p condition → p ∈ st1.pointer_vars → NoNullFor p st1.issues →
       NoNullFor p (memTraverse gl thenBranch
         (unionS guards (extract_guarded_pointers condition st1.pointer_vars)) st1).issues) ∧
    (analyze feC1 DEFAULT_CONFIG emptyMemoryChecker "t.c").1.issues = [] := by
  refine ⟨?_, ?_, ?_⟩
  · intro d condition thenBranch rest2 args sibs guards st
    simp only [memTraverse]
  · intro p condition thenBranch guards st1 hshape hpv hnn
    exact ((memTraverse_invariants gl).1 thenBranch _ st1).1 p
      (unionS_mem_right (guard_shape_extract hshape hpv)) hnn
  · simp [analyze, feC1, tuC1, mainFnC1, mainBodyC1, declStmtP, varDeclP, nullExpr,
      ifStmtP, condNeq, declRefP, derefAssignP, thenBlock, retZero, baseData, locAt,
      ptrType, DEFAULT_CONFIG, emptyMemoryChecker,
      memoryRun, check_pointer_initialization, collect_global_array, check_function,
      pre_scan_child, memTraverse, memTraverseList, var_decl_step, assign_step,
      call_step, free_arg_step, return_step, return_step_name, report_pointer_use,
      first_decl_ref_name, first_decl_ref_name_list, resolve_decl_name,
      resolve_assignment_target, resolve_assignment_rhs, resolve_callee, pyOr, addK,
      mark_initialized, collect_decl_ref_names, collect_decl_ref_names_list,
      extract_guarded_pointers, extract_guarded_pointers_list, neqGuard, neqGuardRight,
      tokensHaveNull, unionS, check_array_bounds, extract_array_size, cursor_location,
      variableRun, check_var_decl, check_function_vars, var_walk_list, var_node_step,
      stdlibRun, stack_walk, stdlib_node_issues, stdlib_resolve_callee,
      numericRun, check_division, check_loop, check_unreachable, unreachableScan,
      is_reachable, reachLoop, loop_is_definitely_infinite,
      stopNow, stableSort, insertSorted,
      Cursor.kind, Cursor.children, Cursor.spelling, Cursor.data, Cursor.loc,
      Cursor.tokens, Cursor.typ, Cursor.referenced, Cursor.arguments,
      Cursor.displayname, Cursor.semSiblings, Cursor.semParentKind]

/-- Witness for C1: for the concrete condition `p != NULL` and the
concrete then-branch `{ *p = 1; }`, starting from a state where `p` is a
null-valued pointer variable, the walk of the then-branch produces no
null-dereference finding for `p`. -/
theorem claim_C1_guarded_then_branch_witness :
    NoNullFor "p" (memTraverse emptyMemoryChecker thenBlock
      (unionS [] (extract_guarded_pointers condNeq st1w.pointer_vars)) st1w).issues :=
  (claim_C1_guarded_then_branch emptyMemoryChecker).2.1 "p" condNeq thenBlock [] st1w
    (GuardShape.neq_left
      { baseData with loc := locAt 1 31, tokens := ["p", "!=", "NULL"] }
      (declRefP 1 31) (nullExpr 1 36) [] [] []
      rfl rfl rfl rfl rfl rfl)
    (by decide)
    (by intro i hi; simp [st1w] at hi)
